import Mathlib

/-!
# The C output backend of convimg (`src/output-c.c`)

A shallow embedding of the four emission operations' text generation and of
the shared byte-array formatter `output_c`, followed by the properties of
the emitted text.

Conventions of the embedding.

* A `FILE *` opened with `fopen(path, "wt")` is a path of an explicit file
  system; the text of a file is the concatenation of the successive
  `fputs` / `fprintf` outputs.
* C `int` values are `Int`, `size_t` values are `Nat`; the conversion
  `int -> size_t` and the one multiplication that can overflow are written
  with an explicit modulus.
* `unsigned char` buffers are `List Nat`; the theorems assume the elements
  are below 256.
* Logging (`LOG_INFO`, `LOG_ERROR`) writes to no file and is left out.
-/

namespace Convimg

/-! ## printf conversions -/

/-- Left padding of a converted value to a minimum field width. -/
def pad_left (c : Char) (w : Nat) (s : String) : String :=
  String.mk (List.replicate (w - s.length) c) ++ s

/-- The conversion `%x`: lowercase hexadecimal, no padding. -/
def fmt_x (n : Nat) : String := String.mk (Nat.toDigits 16 n)

/-- The conversion `%02x`: lowercase hexadecimal, zero padded to two. -/
def fmt_02x (n : Nat) : String := pad_left '0' 2 (fmt_x n)

/-- Decimal digits of a natural number. -/
def fmt_u (n : Nat) : String := String.mk (Nat.toDigits 10 n)

/-- The conversion `%d`. -/
def fmt_d : Int → String
  | Int.ofNat m => fmt_u m
  | Int.negSucc m => "-" ++ fmt_u (m + 1)

/-- The conversion `%3d`: decimal, space padded on the left to three. -/
def fmt_3d (n : Int) : String := pad_left (Char.ofNat 32) 3 (fmt_d n)

/-! ## Machine integers -/

/-- Two's-complement value of a 32-bit C `int` holding the mathematical
result `x` (the identity when `x` is within range). -/
def int_wrap (x : Int) : Int := (x + 2 ^ 31) % 2 ^ 32 - 2 ^ 31

/-- Conversion of an `int` argument to a 64-bit `size_t` parameter. -/
def size_t_of_int (x : Int) : Nat := (x % 2 ^ 64).toNat

/-! ## Data model -/

/-- Modelled from the spec: `struct image` is declared in `image.h`, which is
not among the sources. The fields are the ones `output-c.c` reads: name,
output base path, the (possibly compressed) byte buffer and its size, the
pixel width and height, the original byte size, and the two flags. -/
structure image where
  name : String
  directory : String
  data : List Nat
  width : Int
  height : Int
  size : Int
  orig_size : Int
  compressed : Bool
  rlet : Bool
deriving Inhabited

/-- Modelled from the spec: `struct tileset_tile` is declared in `tileset.h`,
which is not among the sources: a byte buffer and its size. -/
structure tileset_tile where
  data : List Nat
  size : Int
deriving Inhabited

/-- Modelled from the spec: `struct tileset` is declared in `tileset.h`,
which is not among the sources. The code reads the tileset's own
`directory`, `compressed`, `rlet` and `p_table` fields, the tile array with
its count, and the name of the embedded image. -/
structure tileset where
  directory : String
  image : Convimg.image
  tiles : List tileset_tile
  nr_tiles : Int
  p_table : Bool
  compressed : Bool
  rlet : Bool
deriving Inhabited

/-- Modelled from the spec: the `rgb` member of `struct color` (declared in a
header that is not among the sources): three channels. -/
structure rgb_t where
  r : Nat
  g : Nat
  b : Nat
deriving Inhabited

/-- Modelled from the spec: `struct color` is declared in a header that is
not among the sources: an RGB triple plus the packed 16-bit `target`. -/
structure color where
  rgb : rgb_t
  target : Nat
deriving Inhabited

/-- Modelled from the spec: `struct palette_entry` is declared in a header
that is not among the sources: the colour, the colour originally requested,
and the flags `exact` and `valid`. -/
structure palette_entry where
  color : Convimg.color
  orig_color : Convimg.color
  exact : Bool
  valid : Bool
deriving Inhabited

/-- Modelled from the spec: `struct palette` is declared in a header that is
not among the sources: name, output base path, the entry array and its
count. -/
structure palette where
  name : String
  directory : String
  entries : List palette_entry
  nr_entries : Int
deriving Inhabited

/-- Modelled from the spec: `struct tileset_group` is declared in a header
that is not among the sources: the tileset array and its count. -/
structure tileset_group where
  tilesets : List tileset
  nr_tilesets : Int
deriving Inhabited

/-- Modelled from the spec: `struct convert` is declared in a header that is
not among the sources: name, palette offset, the image array with its count,
and the tileset group pointer (`none` for NULL). -/
structure convert where
  name : String
  palette_offset : Int
  images : List image
  nr_images : Int
  tileset_group : Option Convimg.tileset_group
deriving Inhabited

/-- Modelled from the spec: `struct output` is declared in `output.h`, which
is not among the sources: output directory, include-file name, the palette
array and the convert array with their counts. -/
structure output where
  directory : String
  include_file : String
  palettes : List palette
  nr_palettes : Int
  converts : List convert
  nr_converts : Int

/-! ## File system -/

/-- Explicit file system: the text held by each path, and the set of paths
that `fopen(path, "wt")` can open. -/
structure file_system where
  files : String → Option String
  can_open : String → Bool

/-- The call `fopen(path, "wt")`: fails (`none`, a NULL stream), or creates
the file or truncates it to the empty text. -/
def fopen_wt (fs : file_system) (path : String) : Option file_system :=
  if fs.can_open path then
    some { fs with files := fun p => if p = path then some "" else fs.files p }
  else none

/-- Appending text to the open stream of `path`. -/
def fwrite (fs : file_system) (path : String) (text : String) : file_system :=
  { fs with files := fun p =>
      if p = path then some ((fs.files p).getD "" ++ text) else fs.files p }

/-- Modelled from the spec: `strdupcat` is declared in `strings.h`, which is
not among the sources: the concatenation of a base path and a suffix. -/
def strdupcat (a b : String) : String := a ++ b

/-! ## The shared formatter `output_c` -/

/-- One iteration of the loop of `output_c` (lines 43-58). -/
def output_c_step (arr : List Nat) (size : Nat) (i : Nat) : String :=
  (if i % 32 = 0 then "\n    " else "") ++
  (if i + 1 = size then "0x" ++ fmt_02x (arr.getD i 0)
   else "0x" ++ fmt_02x (arr.getD i 0) ++ ",")

/-- The text `output_c(arr, size, fdo)` writes to `fdo` (lines 39-62). Its
`int` result is always 0 and no caller reads it. -/
def output_c (arr : List Nat) (size : Nat) : String :=
  String.join ((List.range size).map (output_c_step arr size)) ++ "\n\x7d;\n"

/-! ## `output_c_image` -/

/-- The successive `fprintf` outputs to the header stream (lines 80-110). -/
def output_c_image_header (img : image) : List String :=
  [ "#ifndef " ++ img.name ++ "_include_file\n",
    "#define " ++ img.name ++ "_include_file\n",
    "\n",
    "#ifdef __cplusplus\n",
    "extern \"C\" \x7b\n",
    "#endif\n",
    "\n",
    "#define " ++ img.name ++ "_width " ++ fmt_d img.width ++ "\n",
    "#define " ++ img.name ++ "_height " ++ fmt_d img.height ++ "\n",
    "#define " ++ img.name ++ "_size " ++ fmt_d img.orig_size ++ "\n" ] ++
  (if img.compressed then
    [ "#define " ++ img.name ++ "_compressed_size " ++ fmt_d img.size ++ "\n",
      "extern unsigned char " ++ img.name ++ "_compressed[" ++ fmt_d img.size ++ "];\n" ]
   else
    [ "#define " ++ img.name ++ " ((" ++
        (if img.rlet then "gfx_rletsprite_t" else "gfx_sprite_t") ++ "*)" ++
        img.name ++ "_data)\n",
      "extern unsigned char " ++ img.name ++ "_data[" ++ fmt_d img.size ++ "];\n" ]) ++
  [ "\n",
    "#ifdef __cplusplus\n",
    "\x7d\n",
    "#endif\n",
    "\n",
    "#endif\n" ]

/-- The text written to the source stream (lines 123-132). -/
def output_c_image_source (img : image) : String :=
  (if img.compressed then
    "unsigned char " ++ img.name ++ "_compressed[" ++ fmt_d img.size ++ "] =\n\x7b"
   else
    "unsigned char " ++ img.name ++ "_data[" ++ fmt_d img.size ++ "] =\n\x7b") ++
  output_c img.data (size_t_of_int img.size)

/-- The operation `output_c_image` (lines 64-145): status and final file
system. -/
def output_c_image (fs : file_system) (img : image) : Int × file_system :=
  let header := strdupcat img.directory ".h"
  let source := strdupcat img.directory ".c"
  match fopen_wt fs header with
  | none => (-1, fs)
  | some fs1 =>
    let fs2 := fwrite fs1 header (String.join (output_c_image_header img))
    match fopen_wt fs2 source with
    | none => (-1, fs2)
    | some fs3 => (0, fwrite fs3 source (output_c_image_source img))

/-! ## `output_c_tileset` -/

/-- One iteration of the header loop (lines 172-196). -/
def output_c_tileset_header_tile (ts : tileset) (i : Nat) : List String :=
  let tile := ts.tiles.getD i default
  if ts.compressed then
    [ "extern unsigned char " ++ ts.image.name ++ "_tile_" ++ fmt_d i ++
        "_compressed[" ++ fmt_d tile.size ++ "];\n" ]
  else
    [ "extern unsigned char " ++ ts.image.name ++ "_tile_" ++ fmt_d i ++
        "_data[" ++ fmt_d tile.size ++ "];\n",
      "#define " ++ ts.image.name ++ "_tile_" ++ fmt_d i ++ " ((" ++
        (if ts.rlet then "gfx_rletsprite_t" else "gfx_sprite_t") ++ "*)" ++
        ts.image.name ++ "_tile_" ++ fmt_d i ++ "_data)\n" ]

/-- The successive `fprintf` outputs to the header stream (lines 164-228). -/
def output_c_tileset_header (ts : tileset) : List String :=
  [ "#ifndef " ++ ts.image.name ++ "_include_file\n",
    "#define " ++ ts.image.name ++ "_include_file\n",
    "\n",
    "#ifdef __cplusplus\n",
    "extern \"C\" \x7b\n",
    "#endif\n",
    "\n" ] ++
  ((List.range ts.nr_tiles.toNat).map (output_c_tileset_header_tile ts)).flatten ++
  [ "#define " ++ ts.image.name ++ "_num_tiles " ++ fmt_d ts.nr_tiles ++ "\n" ] ++
  (if ts.p_table then
    (if ts.compressed then
      [ "extern unsigned char *" ++ ts.image.name ++ "_tiles_compressed[" ++
          fmt_d ts.nr_tiles ++ "];\n" ]
     else
      [ "extern unsigned char *" ++ ts.image.name ++ "_tiles_data[" ++
          fmt_d ts.nr_tiles ++ "];\n",
        "#define " ++ ts.image.name ++ "_tiles ((" ++
          (if ts.rlet then "gfx_rletsprite_t" else "gfx_sprite_t") ++ "**)" ++
          ts.image.name ++ "_tiles_data)\n" ])
   else []) ++
  [ "\n",
    "#ifdef __cplusplus\n",
    "\x7d\n",
    "#endif\n",
    "\n",
    "#endif\n" ]

/-- One iteration of the first source loop (lines 241-261). -/
def output_c_tileset_source_tile (ts : tileset) (i : Nat) : String :=
  let tile := ts.tiles.getD i default
  (if ts.compressed then
    "unsigned char " ++ ts.image.name ++ "_tile_" ++ fmt_d i ++
      "_compressed[" ++ fmt_d tile.size ++ "] =\n\x7b"
   else
    "unsigned char " ++ ts.image.name ++ "_tile_" ++ fmt_d i ++
      "_data[" ++ fmt_d tile.size ++ "] =\n\x7b") ++
  output_c tile.data (size_t_of_int tile.size)

/-- One iteration of the pointer-table loop (lines 278-292). -/
def output_c_tileset_source_ptr (ts : tileset) (i : Nat) : String :=
  if ts.compressed then
    "    " ++ ts.image.name ++ "_tile_" ++ fmt_d i ++ "_compressed,\n"
  else
    "    " ++ ts.image.name ++ "_tile_" ++ fmt_d i ++ "_data,\n"

/-- The text written to the source stream (lines 241-295). -/
def output_c_tileset_source (ts : tileset) : String :=
  String.join ((List.range ts.nr_tiles.toNat).map (output_c_tileset_source_tile ts)) ++
  (if ts.p_table then
    (if ts.compressed then
      "unsigned char *" ++ ts.image.name ++ "_tiles_compressed[" ++
        fmt_d ts.nr_tiles ++ "] =\n\x7b\n"
     else
      "unsigned char *" ++ ts.image.name ++ "_tiles_data[" ++
        fmt_d ts.nr_tiles ++ "] =\n\x7b\n") ++
    String.join ((List.range ts.nr_tiles.toNat).map (output_c_tileset_source_ptr ts)) ++
    "\x7d;\n"
   else "")

/-- The operation `output_c_tileset` (lines 147-308): status and final file
system. -/
def output_c_tileset (fs : file_system) (ts : tileset) : Int × file_system :=
  let header := strdupcat ts.directory ".h"
  let source := strdupcat ts.directory ".c"
  match fopen_wt fs header with
  | none => (-1, fs)
  | some fs1 =>
    let fs2 := fwrite fs1 header (String.join (output_c_tileset_header ts))
    match fopen_wt fs2 source with
    | none => (-1, fs2)
    | some fs3 => (0, fwrite fs3 source (output_c_tileset_source ts))

/-! ## `output_c_palette` -/

/-- The local `int size = palette->nr_entries * 2` (line 314). -/
def output_c_palette_size (p : palette) : Int := int_wrap (p.nr_entries * 2)

/-- The successive `fprintf` outputs to the header stream (lines 328-342). -/
def output_c_palette_header (p : palette) : List String :=
  [ "#ifndef " ++ p.name ++ "_include_file\n",
    "#define " ++ p.name ++ "_include_file\n",
    "\n",
    "#ifdef __cplusplus\n",
    "extern \"C\" \x7b\n",
    "#endif\n",
    "\n",
    "#define sizeof_" ++ p.name ++ " " ++ fmt_d (output_c_palette_size p) ++ "\n",
    "extern unsigned char " ++ p.name ++ "[" ++ fmt_d (output_c_palette_size p) ++ "];\n",
    "\n",
    "#ifdef __cplusplus\n",
    "\x7d\n",
    "#endif\n",
    "\n",
    "#endif\n" ]

/-- The line written for entry `i` holding `e` (the body of the loop,
lines 359-388). -/
def output_c_palette_entry (i : Nat) (e : palette_entry) : String :=
  if e.exact then
    "    0x" ++ fmt_02x (e.color.target &&& 255) ++
    ", 0x" ++ fmt_02x ((e.color.target >>> 8) &&& 255) ++
    ", /* " ++ fmt_3d i ++
    ": rgb(" ++ fmt_3d e.color.rgb.r ++ ", " ++ fmt_3d e.color.rgb.g ++ ", " ++
    fmt_3d e.color.rgb.b ++
    ") [exact original: rgb(" ++ fmt_3d e.orig_color.rgb.r ++ ", " ++
    fmt_3d e.orig_color.rgb.g ++ ", " ++ fmt_3d e.orig_color.rgb.b ++ ")] */\n"
  else if !e.valid then
    "    0x00, 0x00, /* " ++ fmt_3d i ++ ": (unused) */\n"
  else
    "    0x" ++ fmt_02x (e.color.target &&& 255) ++
    ", 0x" ++ fmt_02x ((e.color.target >>> 8) &&& 255) ++
    ", /* " ++ fmt_3d i ++
    ": rgb(" ++ fmt_3d e.color.rgb.r ++ ", " ++ fmt_3d e.color.rgb.g ++ ", " ++
    fmt_3d e.color.rgb.b ++ ") */\n"

/-- The successive outputs of the entry loop (lines 357-389). -/
def output_c_palette_lines (p : palette) : List String :=
  (List.range p.nr_entries.toNat).map
    (fun i => output_c_palette_entry i (p.entries.getD i default))

/-- The text written to the source stream (lines 355-390). -/
def output_c_palette_source (p : palette) : String :=
  "unsigned char " ++ p.name ++ "[" ++ fmt_d (output_c_palette_size p) ++ "] =\n\x7b\n" ++
  String.join (output_c_palette_lines p) ++
  "\x7d;\n"

/-- The operation `output_c_palette` (lines 310-403): status and final file
system. -/
def output_c_palette (fs : file_system) (p : palette) : Int × file_system :=
  let header := strdupcat p.directory ".h"
  let source := strdupcat p.directory ".c"
  match fopen_wt fs header with
  | none => (-1, fs)
  | some fs1 =>
    let fs2 := fwrite fs1 header (String.join (output_c_palette_header p))
    match fopen_wt fs2 source with
    | none => (-1, fs2)
    | some fs3 => (0, fwrite fs3 source (output_c_palette_source p))

/-! ## `output_c_include_file` -/

/-- The call `strchr(s, c)`: the index of the first occurrence of `c`, or
`none` for NULL. -/
def strchr : List Char → Char → Option Nat
  | [], _ => none
  | x :: xs, c => if x = c then some 0 else (strchr xs c).map (fun k => k + 1)

/-- The string `include_name` after lines 408-417: a copy of the include-file
name, cut by the terminator written at the first `.` when there is one. -/
def output_c_include_name (include_file : String) : String :=
  match strchr include_file.data '.' with
  | none => include_file
  | some k => String.mk (include_file.data.take k)

/-- One iteration of the convert loop (lines 443-464). -/
def output_c_include_convert (o : output) (i : Nat) : List String :=
  let convert := o.converts.getD i default
  [ "#define " ++ convert.name ++ "_palette_offset " ++ fmt_d convert.palette_offset ++ "\n" ] ++
  (List.range convert.nr_images.toNat).map (fun j =>
    "#include \"" ++ (convert.images.getD j default).name ++ ".h\"\n") ++
  (match convert.tileset_group with
   | none => []
   | some tileset_group =>
     (List.range tileset_group.nr_tilesets.toNat).map (fun k =>
       "#include \"" ++ (tileset_group.tilesets.getD k default).image.name ++ ".h\"\n"))

/-- The successive `fprintf` outputs to the include file (lines 428-472). -/
def output_c_include_file_lines (o : output) : List String :=
  [ "#ifndef " ++ output_c_include_name o.include_file ++ "_include_file\n",
    "#define " ++ output_c_include_name o.include_file ++ "_include_file\n",
    "\n",
    "#ifdef __cplusplus\n",
    "extern \"C\" \x7b\n",
    "#endif\n",
    "\n" ] ++
  (List.range o.nr_palettes.toNat).map (fun i =>
    "#include \"" ++ (o.palettes.getD i default).name ++ ".h\"\n") ++
  ((List.range o.nr_converts.toNat).map (output_c_include_convert o)).flatten ++
  [ "\n",
    "#ifdef __cplusplus\n",
    "\x7d\n",
    "#endif\n",
    "\n",
    "#endif\n" ]

/-- The operation `output_c_include_file` (lines 405-485): status and final
file system. -/
def output_c_include_file (fs : file_system) (o : output) : Int × file_system :=
  let include_file := strdupcat o.directory o.include_file
  match fopen_wt fs include_file with
  | none => (-1, fs)
  | some fs1 => (0, fwrite fs1 include_file (String.join (output_c_include_file_lines o)))

/-! ## Reference vocabulary of the properties -/

/-- The sixteen lowercase hexadecimal digits. -/
def hexChar (d : Nat) : Char := "0123456789abcdef".data.getD d '?'

/-- Two-digit lowercase hexadecimal of a byte. -/
def hex2 (b : Nat) : String := String.mk [hexChar (b / 16), hexChar (b % 16)]

/-- The ten decimal digits. -/
def decChar (d : Nat) : Char := "0123456789".data.getD d '?'

/-- A number below 1000 right-justified with spaces to three characters. -/
def rjust3 (n : Nat) : String :=
  if n < 10 then String.mk [Char.ofNat 32, Char.ofNat 32, decChar n]
  else if n < 100 then String.mk [Char.ofNat 32, decChar (n / 10), decChar (n % 10)]
  else String.mk [decChar (n / 100), decChar (n / 10 % 10), decChar (n % 10)]

/-- Number of hex tokens of a text: the positions at which `0x` starts. -/
def countHexTokens : List Char → Nat
  | [] => 0
  | c :: cs => (if c = '0' ∧ cs.head? = some 'x' then 1 else 0) + countHexTokens cs

/-- What the formatter has to write for index `i` of the buffer `b`: the
line break and indent iff `i % 32 = 0`, the token, a comma iff `i + 1 < N`. -/
def spec_output_c_item (b : List Nat) (i : Nat) : String :=
  (if i % 32 = 0 then "\n    " else "") ++ "0x" ++ hex2 (b.getD i 0) ++
  (if i + 1 < b.length then "," else "")

/-- What the formatter has to write for the buffer `b`. -/
def spec_output_c (b : List Nat) : String :=
  String.join ((List.range b.length).map (spec_output_c_item b)) ++ "\n\x7d;\n"

/-- Opening boilerplate of every header, keyed by the guard identifier. -/
def header_open (id : String) : List String :=
  [ "#ifndef " ++ id ++ "_include_file\n",
    "#define " ++ id ++ "_include_file\n",
    "\n",
    "#ifdef __cplusplus\n",
    "extern \"C\" \x7b\n",
    "#endif\n",
    "\n" ]

/-- Closing boilerplate of every header. -/
def header_close : List String :=
  [ "\n",
    "#ifdef __cplusplus\n",
    "\x7d\n",
    "#endif\n",
    "\n",
    "#endif\n" ]

/-- The sprite structure selected by the `rlet` flag. -/
def sprite_type (rlet : Bool) : String :=
  if rlet then "gfx_rletsprite_t" else "gfx_sprite_t"

/-- The common shape of the three paired operations: open the header, write
its text, open the source, write its text. -/
def emit_pair (fs : file_system) (dir htext stext : String) : Int × file_system :=
  match fopen_wt fs (strdupcat dir ".h") with
  | none => (-1, fs)
  | some fs1 =>
    match fopen_wt (fwrite fs1 (strdupcat dir ".h") htext) (strdupcat dir ".c") with
    | none => (-1, fwrite fs1 (strdupcat dir ".h") htext)
    | some fs3 => (0, fwrite fs3 (strdupcat dir ".c") stext)

/-- A file system holding no file, in which every path can be opened. -/
def fs_empty : file_system := { files := fun _ => none, can_open := fun _ => true }

/-- The image of the specification's example: name `foo`, size 10, width 4,
height 2, neither compressed nor rlet. -/
def image_foo : image :=
  { name := "foo", directory := "out/foo", data := [0, 1, 2, 3, 4, 5, 6, 7, 8, 255],
    width := 4, height := 2, size := 10, orig_size := 10,
    compressed := false, rlet := false }

/-- A compressed image: 3 bytes of compressed data for 8 original bytes. -/
def image_bar : image :=
  { name := "bar", directory := "out/bar", data := [18, 171, 0],
    width := 4, height := 2, size := 3, orig_size := 8,
    compressed := true, rlet := true }

/-- Entry 0 of the specification's example palette: exact, target 0x1234,
rgb 10,20,30, original 10,20,30. -/
def entry_exact : palette_entry :=
  { color := { rgb := { r := 10, g := 20, b := 30 }, target := 0x1234 },
    orig_color := { rgb := { r := 10, g := 20, b := 30 }, target := 0x1234 },
    exact := true, valid := true }

/-- Entry 1 of the specification's example palette: an unused slot. -/
def entry_unused : palette_entry :=
  { color := { rgb := { r := 7, g := 8, b := 9 }, target := 0x5678 },
    orig_color := { rgb := { r := 0, g := 0, b := 0 }, target := 0 },
    exact := false, valid := false }

/-- Entry 2 of the specification's example palette: valid and not exact,
target 0xABCD, rgb 1,2,3. -/
def entry_plain : palette_entry :=
  { color := { rgb := { r := 1, g := 2, b := 3 }, target := 0xABCD },
    orig_color := { rgb := { r := 9, g := 9, b := 9 }, target := 0xFFFF },
    exact := false, valid := true }

/-- The palette of the specification's example. -/
def palette_example : palette :=
  { name := "pal", directory := "out/pal", nr_entries := 3,
    entries := [entry_exact, entry_unused, entry_plain] }

/-- An entry flagged exact but not valid. -/
def entry_exact_unused : palette_entry :=
  { color := { rgb := { r := 1, g := 2, b := 3 }, target := 0x1234 },
    orig_color := { rgb := { r := 1, g := 2, b := 3 }, target := 0x1234 },
    exact := true, valid := false }

/-- A palette whose only entry is flagged exact but not valid. -/
def palette_exact_unused : palette :=
  { name := "pal", directory := "out/pal", nr_entries := 1,
    entries := [entry_exact_unused] }

/-- The tileset of the specification's example: name `name`, 2 tiles,
`p_table = true`, `compressed = false`. -/
def tileset_example : tileset :=
  { directory := "out/name",
    image := { name := "name", directory := "out/img", data := [], width := 8, height := 4,
               size := 0, orig_size := 0, compressed := false, rlet := false },
    tiles := [ { data := [1, 2], size := 2 }, { data := [3, 4, 255], size := 3 } ],
    nr_tiles := 2, p_table := true, compressed := false, rlet := false }

/-- The header lines declaring tile `i` of size `size`: the compressed array,
or the data array followed by its cast definition. -/
def spec_tile_decl (name : String) (compressed rlet : Bool) (i : Nat) (size : Int) :
    List String :=
  if compressed then
    [ "extern unsigned char " ++ name ++ "_tile_" ++ fmt_d i ++ "_compressed[" ++
        fmt_d size ++ "];\n" ]
  else
    [ "extern unsigned char " ++ name ++ "_tile_" ++ fmt_d i ++ "_data[" ++
        fmt_d size ++ "];\n",
      "#define " ++ name ++ "_tile_" ++ fmt_d i ++ " ((" ++ sprite_type rlet ++ "*)" ++
        name ++ "_tile_" ++ fmt_d i ++ "_data)\n" ]

/-- The header lines declaring the pointer table of `n` tiles. -/
def spec_table_decl (name : String) (compressed rlet : Bool) (n : Int) : List String :=
  if compressed then
    [ "extern unsigned char *" ++ name ++ "_tiles_compressed[" ++ fmt_d n ++ "];\n" ]
  else
    [ "extern unsigned char *" ++ name ++ "_tiles_data[" ++ fmt_d n ++ "];\n",
      "#define " ++ name ++ "_tiles ((" ++ sprite_type rlet ++ "**)" ++ name ++
        "_tiles_data)\n" ]

/-- The source text defining tile `i`: the array definition followed by the
shared formatter's output over the tile's buffer. -/
def spec_tile_def (name : String) (compressed : Bool) (i : Nat) (t : tileset_tile) :
    String :=
  "unsigned char " ++ name ++ "_tile_" ++ fmt_d i ++
    (if compressed then "_compressed" else "_data") ++
    "[" ++ fmt_d t.size ++ "] =\n\x7b" ++ output_c t.data (size_t_of_int t.size)

/-- The source text of the pointer table of `n` tiles: one line per tile
index, each ending in a comma, closed with `};`. -/
def spec_table_def (name : String) (compressed : Bool) (n : Nat) : String :=
  "unsigned char *" ++ name ++
    (if compressed then "_tiles_compressed" else "_tiles_data") ++
    "[" ++ fmt_d n ++ "] =\n\x7b\n" ++
  String.join ((List.range n).map (fun (i : Nat) =>
    "    " ++ name ++ "_tile_" ++ fmt_d (i : Int) ++
      (if compressed then "_compressed" else "_data") ++ ",\n")) ++
  "\x7d;\n"

/-- The output bundle of the specification's example: palette `pal`, convert
`cv` with palette offset 16 holding the image `img`, no tileset group; the
include file is `gfx.h` in directory `out/`. -/
def output_example : output :=
  { directory := "out/", include_file := "gfx.h",
    palettes := [ { name := "pal", directory := "out/pal", entries := [], nr_entries := 0 } ],
    nr_palettes := 1,
    converts :=
      [ { name := "cv", palette_offset := 16,
          images := [ { name := "img", directory := "out/img", data := [], width := 1,
                        height := 1, size := 0, orig_size := 0, compressed := false,
                        rlet := false } ],
          nr_images := 1, tileset_group := none } ],
    nr_converts := 1 }

/-- The line including the header of the artifact called `name`. -/
def include_line (name : String) : String := "#include \"" ++ name ++ ".h\"\n"

/-- The lines the include file holds for one convert: its palette offset,
the headers of its images, and the headers of the tilesets of its group when
it has one. -/
def spec_convert_lines (c : convert) : List String :=
  [ "#define " ++ c.name ++ "_palette_offset " ++ fmt_d c.palette_offset ++ "\n" ] ++
  c.images.map (fun im => include_line im.name) ++
  (match c.tileset_group with
   | none => []
   | some g => g.tilesets.map (fun t => include_line t.image.name))

/-- The text every header begins with, keyed by the guard identifier. -/
def header_open_text (id : String) : String :=
  "#ifndef " ++ id ++ "_include_file\n#define " ++ id ++ "_include_file\n\n" ++
  "#ifdef __cplusplus\nextern \"C\" \x7b\n#endif\n\n"

/-- The text every header ends with. -/
def header_close_text : String := "\n#ifdef __cplusplus\n\x7d\n#endif\n\n#endif\n"

/-- The file system in which `path` holds `text` and every other path holds
what it holds in `fs`. -/
def with_file (fs : file_system) (path text : String) : file_system :=
  { fs with files := fun p => if p = path then some text else fs.files p }

/-- A file system in which every path but `out/foo.c` can be opened, and
`out/foo.c` and `out/foo.h` hold old text. -/
def fs_no_source : file_system :=
  { files := fun p => if p = "out/foo.c" ∨ p = "out/foo.h" then some "old" else none,
    can_open := fun p => !(p == "out/foo.c") }

/-- A file system in which no path can be opened, and `out/foo.c` holds old
text. -/
def fs_locked : file_system :=
  { files := fun p => if p = "out/foo.c" then some "old" else none,
    can_open := fun _ => false }

/-- A file system in which every path can be opened, `out/name.h` holds old
text and `out/img.h`, `out/gfx` hold text to keep. -/
def fs_old : file_system :=
  { files := fun p =>
      if p = "out/name.h" then some "old"
      else if p = "out/img.h" ∨ p = "out/gfx" then some "keep" else none,
    can_open := fun _ => true }

/-- An uncompressed image of size 0. -/
def image_empty : image :=
  { name := "nil", directory := "out/nil", data := [], width := 0, height := 0,
    size := 0, orig_size := 0, compressed := false, rlet := false }

/-- Running the operation again on the state its first run produced gives
the same status and leaves that state unchanged. -/
def idempotent_on {α : Type} (op : file_system → α → Int × file_system) (x : α) : Prop :=
  ∀ fs : file_system, op (op fs x).2 x = ((op fs x).1, (op fs x).2)

/-- The result does not depend on what the paths in `written` held before:
from two states with the same openable paths that agree on every other path,
the two runs return the same status and, when they succeed, the same state. -/
def independent_of_old {α : Type} (op : file_system → α → Int × file_system) (x : α)
    (written : List String) : Prop :=
  ∀ fs1 fs2 : file_system, fs1.can_open = fs2.can_open →
    (∀ path, path ∉ written → fs1.files path = fs2.files path) →
    (op fs1 x).1 = (op fs2 x).1 ∧ ((op fs1 x).1 = 0 → (op fs1 x).2 = (op fs2 x).2)

/-- Removing the trailing closing line of the formatter; `none` when the
text does not end with it. -/
def strip_closing (l : List Char) : Option (List Char) :=
  if l.drop (l.length - 4) = ("\n\x7d;\n" : String).data then some (l.take (l.length - 4))
  else none

/-- Deleting newlines and spaces. -/
def strip_blanks (l : List Char) : List Char :=
  l.filter (fun c => !(c == '\n') && !(c == Char.ofNat 32))

/-- Splitting on `,`: the pieces between the commas, in order. -/
def split_commas : List Char → List (List Char)
  | [] => [[]]
  | c :: cs =>
    if c = ',' then [] :: split_commas cs
    else
      match split_commas cs with
      | [] => [[c]]
      | q :: qs => (c :: q) :: qs

/-- Value of a lowercase hexadecimal digit. -/
def hex_value (c : Char) : Option Nat :=
  ("0123456789abcdef" : String).data.indexOf? c

/-- Reading a piece `0xhh` as a hexadecimal number; `none` for any other
piece. -/
def read_hex_byte : List Char → Option Nat
  | [c0, c1, h1, h2] =>
    if c0 = '0' ∧ c1 = 'x' then
      match hex_value h1, hex_value h2 with
      | some a, some b => some (a * 16 + b)
      | _, _ => none
    else none
  | _ => none

/-- All the values of a list of readings, when every reading succeeded. -/
def all_some : List (Option Nat) → Option (List Nat)
  | [] => some []
  | none :: _ => none
  | some a :: rest =>
    match all_some rest with
    | some as => some (a :: as)
    | none => none

/-- Reading back the output of the formatter: remove the trailing closing
line, delete newlines and spaces, split on `,` and read each piece as a
hexadecimal byte. A text left empty holds no piece. -/
def decode_output_c (text : String) : Option (List Nat) :=
  match strip_closing text.data with
  | none => none
  | some body =>
    if strip_blanks body = [] then some []
    else all_some ((split_commas (strip_blanks body)).map read_hex_byte)

/-- The token of a byte: `0x` and its two hexadecimal digits. -/
def hex_token (x : Nat) : List Char := '0' :: 'x' :: (hex2 x).data

/-- The tokens of a buffer separated by commas. -/
def comma_separated : List Nat → List Char
  | [] => []
  | x :: rest => hex_token x ++ (if rest = [] then [] else ',' :: comma_separated rest)

/-- A text that is exactly one line: it ends with a newline and holds no
other newline. -/
def one_line (s : String) : Prop := ∃ body : String, s = body ++ "\n" ∧ '\n' ∉ body.data

/-- The source file that `output_c_palette` leaves on `fs` holds `line` as
line `i` of the initializer: the file is the array definition line and the
opening brace line, then `i` lines, then `line`, then further lines, then the
closing line. -/
def palette_file_line (fs : file_system) (p : palette) (i : Nat) (line : String) : Prop :=
  ∃ before after : List String,
    before.length = i ∧ (∀ l ∈ before, one_line l) ∧ (∀ l ∈ after, one_line l) ∧
    (output_c_palette fs p).2.files (strdupcat p.directory ".c")
      = some ("unsigned char " ++ p.name ++ "[" ++ fmt_d (output_c_palette_size p) ++
          "] =\n\x7b\n" ++ String.join before ++ line ++ String.join after ++ "\x7d;\n")

/-- A text in which no `0x` starts and which does not start with `x`: it
adds no hex token wherever it is inserted. -/
def quiet (l : List Char) : Prop := l.head? ≠ some 'x' ∧ countHexTokens l = 0

instance quiet_decidable (l : List Char) : Decidable (quiet l) :=
  inferInstanceAs (Decidable (l.head? ≠ some 'x' ∧ countHexTokens l = 0))

/-! ## Lemmas on the printf conversions -/

set_option maxRecDepth 1000000 in
theorem fmt_02x_byte : ∀ n < 256, fmt_02x n = hex2 n := by decide

set_option maxRecDepth 1000000 in
theorem fmt_3d_small : ∀ n < 1000, fmt_3d (Int.ofNat n) = rjust3 n := by decide

set_option maxRecDepth 1000000 in
theorem rjust3_length : ∀ n < 1000, (rjust3 n).length = 3 := by decide

theorem hex2_length (n : Nat) : (hex2 n).length = 2 := rfl

/-! ## Lemmas on token counting -/

theorem countHexTokens_append (l1 l2 : List Char) (h : l2.head? ≠ some 'x') :
    countHexTokens (l1 ++ l2) = countHexTokens l1 + countHexTokens l2 := by
  induction l1 with
  | nil => simp [countHexTokens]
  | cons c cs ih =>
    cases cs with
    | nil =>
      simp only [List.cons_append, List.nil_append, countHexTokens, List.head?_nil]
      simp [h]
    | cons d ds =>
      have e : countHexTokens (c :: ((d :: ds) ++ l2))
          = (if c = '0' ∧ some d = some 'x' then 1 else 0) + countHexTokens ((d :: ds) ++ l2) := rfl
      have e2 : countHexTokens (c :: d :: ds)
          = (if c = '0' ∧ some d = some 'x' then 1 else 0) + countHexTokens (d :: ds) := rfl
      rw [List.cons_append, e, e2, ih]
      omega

theorem head_flatten_ne (ls : List (List Char)) (c : Char)
    (h : ∀ l ∈ ls, l.head? ≠ some c) : ls.flatten.head? ≠ some c := by
  induction ls with
  | nil => simp
  | cons l ls ih =>
    have h1 := h l (List.mem_cons_self _ _)
    have h2 := ih (fun m hm => h m (List.mem_cons_of_mem _ hm))
    cases l with
    | nil => simpa using h2
    | cons a as => simpa using h1

theorem countHexTokens_flatten (ls : List (List Char))
    (h : ∀ l ∈ ls, l.head? ≠ some 'x') :
    countHexTokens ls.flatten = (ls.map countHexTokens).sum := by
  induction ls with
  | nil => simp [countHexTokens]
  | cons l ls ih =>
    have h2 : ∀ m ∈ ls, m.head? ≠ some 'x' := fun m hm => h m (List.mem_cons_of_mem _ hm)
    rw [List.flatten_cons, countHexTokens_append _ _ (head_flatten_ne ls 'x' h2), ih h2]
    simp

set_option maxRecDepth 1000000 in
theorem token_count_byte : ∀ n < 256,
    countHexTokens ("0x" ++ hex2 n).data = 1 ∧
    countHexTokens ("0x" ++ hex2 n ++ ",").data = 1 ∧
    countHexTokens ("\n    " ++ "0x" ++ hex2 n).data = 1 ∧
    countHexTokens ("\n    " ++ "0x" ++ hex2 n ++ ",").data = 1 := by decide

/-! ## The shared formatter -/

theorem output_c_step_eq (b : List Nat) (hb : ∀ x ∈ b, x < 256) (i : Nat)
    (hi : i < b.length) : output_c_step b b.length i = spec_output_c_item b i := by
  have hx : b.getD i 0 < 256 := by
    rw [List.getD_eq_getElem _ _ hi]; exact hb _ (List.getElem_mem _)
  unfold output_c_step spec_output_c_item
  rw [fmt_02x_byte _ hx]
  by_cases h : i + 1 = b.length
  · have : ¬ (i + 1 < b.length) := by omega
    simp [h, this, String.append_assoc]
  · have : i + 1 < b.length := by omega
    simp [h, this, String.append_assoc]

theorem output_c_eq_spec (b : List Nat) (hb : ∀ x ∈ b, x < 256) :
    output_c b b.length = spec_output_c b := by
  unfold output_c spec_output_c
  congr 2
  apply List.map_congr_left
  intro i hi
  exact output_c_step_eq b hb i (List.mem_range.mp hi)

theorem spec_item_count (b : List Nat) (hb : ∀ x ∈ b, x < 256) (i : Nat)
    (hi : i < b.length) :
    countHexTokens (spec_output_c_item b i).data = 1 ∧
    (spec_output_c_item b i).data.head? ≠ some 'x' := by
  have hx : b.getD i 0 < 256 := by
    rw [List.getD_eq_getElem _ _ hi]; exact hb _ (List.getElem_mem _)
  obtain ⟨h1, h2, h3, h4⟩ := token_count_byte _ hx
  unfold spec_output_c_item
  by_cases hm : i % 32 = 0 <;> by_cases hl : i + 1 < b.length
  · simp only [hm, hl, if_true]; exact ⟨h4, by simp [String.data_append]⟩
  · simp only [hm, hl, if_true, if_false, String.append_empty]
    exact ⟨h3, by simp [String.data_append]⟩
  · simp only [hm, hl, if_true, if_false, String.empty_append]
    exact ⟨h2, by simp [String.data_append]⟩
  · simp only [hm, hl, if_false, String.empty_append, String.append_empty]
    exact ⟨h1, by simp [String.data_append]⟩

theorem output_c_token_count (b : List Nat) (hb : ∀ x ∈ b, x < 256) :
    countHexTokens (output_c b b.length).data = b.length := by
  rw [output_c_eq_spec b hb]
  unfold spec_output_c
  rw [String.data_append, countHexTokens_append _ _ (by decide), String.data_join,
    countHexTokens_flatten]
  · have : countHexTokens ("\n\x7d;\n" : String).data = 0 := by decide
    rw [this, List.map_map, List.map_map, Nat.add_zero]
    have hc : ∀ i ∈ List.range b.length,
        ((countHexTokens ∘ String.data) ∘ spec_output_c_item b) i = 1 := by
      intro i hi
      exact (spec_item_count b hb i (List.mem_range.mp hi)).1
    rw [List.map_congr_left hc]
    simp
  · intro l hl
    simp only [List.map_map, List.mem_map, List.mem_range, Function.comp] at hl
    obtain ⟨i, hi, rfl⟩ := hl
    exact (spec_item_count b hb i hi).2

/-! ## The file system after a paired operation -/

theorem header_ne_source (d : String) : strdupcat d ".h" ≠ strdupcat d ".c" := by
  intro h
  have h2 := congrArg String.data h
  simp [strdupcat, String.data_append] at h2

theorem output_c_image_eq (fs : file_system) (img : image) :
    output_c_image fs img
      = emit_pair fs img.directory (String.join (output_c_image_header img))
          (output_c_image_source img) := rfl

theorem output_c_tileset_eq (fs : file_system) (ts : tileset) :
    output_c_tileset fs ts
      = emit_pair fs ts.directory (String.join (output_c_tileset_header ts))
          (output_c_tileset_source ts) := rfl

theorem output_c_palette_eq (fs : file_system) (p : palette) :
    output_c_palette fs p
      = emit_pair fs p.directory (String.join (output_c_palette_header p))
          (output_c_palette_source p) := rfl

theorem emit_pair_header (fs : file_system) (d h s : String)
    (ho : fs.can_open (strdupcat d ".h") = true) :
    (emit_pair fs d h s).2.files (strdupcat d ".h") = some h := by
  have hne := header_ne_source d
  unfold emit_pair fopen_wt fwrite
  simp only [ho, if_true]
  by_cases hs : fs.can_open (strdupcat d ".c") = true
  · simp [hs, hne]
  · simp [hs]

theorem emit_pair_source (fs : file_system) (d h s : String)
    (ho : fs.can_open (strdupcat d ".h") = true)
    (hs : fs.can_open (strdupcat d ".c") = true) :
    (emit_pair fs d h s).1 = 0 ∧
    (emit_pair fs d h s).2.files (strdupcat d ".c") = some s := by
  unfold emit_pair fopen_wt fwrite
  simp [ho, hs]

/-- Claim C1. For every byte buffer `b` of length `N` with bytes in 0..255 the
shared formatter `output_c` writes, for each index `i = 0..N-1` in order, the
line break and four-space indent iff `i % 32 = 0`, then `0x` and the two-digit
lowercase hexadecimal of `b[i]`, then a comma iff `i + 1 < N`, and finally the
closing `};` line. Hence the output holds exactly `N` hex tokens, and the last
token is followed directly by the closing line, without a comma. -/
theorem C1_output_c_layout (b : List Nat) (hb : ∀ x ∈ b, x < 256) :
    output_c b b.length
      = String.join ((List.range b.length).map (fun i =>
          (if i % 32 = 0 then "\n    " else "") ++ "0x" ++ hex2 (b.getD i 0) ++
          (if i + 1 < b.length then "," else ""))) ++ "\n\x7d;\n"
    ∧ countHexTokens (output_c b b.length).data = b.length
    ∧ (∀ init last, b = init ++ [last] →
        ∃ pre : String, output_c b b.length = pre ++ "0x" ++ hex2 last ++ "\n\x7d;\n") := by
  refine ⟨output_c_eq_spec b hb, output_c_token_count b hb, ?_⟩
  intro init last hlast
  rw [output_c_eq_spec b hb]
  unfold spec_output_c
  have hlen : b.length = init.length + 1 := by rw [hlast]; simp
  have hget : b.getD init.length 0 = last := by rw [hlast]; simp
  refine ⟨String.join ((List.range init.length).map (spec_output_c_item b)) ++
    (if init.length % 32 = 0 then "\n    " else ""), ?_⟩
  rw [hlen, List.range_succ, List.map_append]
  apply String.ext
  simp only [String.data_append, String.data_join, List.map_append, List.flatten_append,
    List.map_cons, List.map_nil, List.flatten_cons, List.flatten_nil, List.append_nil,
    spec_output_c_item, hget, hlen, Nat.lt_irrefl, if_false, String.data_append,
    List.append_assoc]

set_option maxRecDepth 100000 in
/-- Witness of C1 on the buffer `[0, 171, 255]` and on the 33 bytes
`0, 1, ..., 32`, where the second line break comes before the 33rd token. -/
theorem C1_output_c_layout_witness :
    (∀ x ∈ [0, 171, 255], x < 256) ∧
    output_c [0, 171, 255] 3 = "\n    0x00,0xab,0xff\n\x7d;\n" ∧
    (∀ x ∈ List.range 33, x < 256) ∧
    output_c (List.range 33) 33
      = "\n    0x00,0x01,0x02,0x03,0x04,0x05,0x06,0x07,0x08,0x09,0x0a,0x0b,0x0c,0x0d,0x0e,0x0f," ++
        "0x10,0x11,0x12,0x13,0x14,0x15,0x16,0x17,0x18,0x19,0x1a,0x1b,0x1c,0x1d,0x1e,0x1f," ++
        "\n    0x20\n\x7d;\n" :=
  ⟨by decide, (C1_output_c_layout [0, 171, 255] (by decide)).1.trans (by decide),
    by decide, (C1_output_c_layout (List.range 33) (by decide)).1.trans (by decide)⟩

/-! ## The image operation -/

theorem image_header_uncompressed_eq (img : image) (hc : img.compressed = false) :
    output_c_image_header img
      = header_open img.name ++
        [ "#define " ++ img.name ++ "_width " ++ fmt_d img.width ++ "\n",
          "#define " ++ img.name ++ "_height " ++ fmt_d img.height ++ "\n",
          "#define " ++ img.name ++ "_size " ++ fmt_d img.orig_size ++ "\n",
          "#define " ++ img.name ++ " ((" ++ sprite_type img.rlet ++ "*)" ++
            img.name ++ "_data)\n",
          "extern unsigned char " ++ img.name ++ "_data[" ++ fmt_d img.size ++ "];\n" ] ++
        header_close := by
  simp [output_c_image_header, header_open, header_close, sprite_type, hc]

theorem image_header_compressed_eq (img : image) (hc : img.compressed = true) :
    output_c_image_header img
      = header_open img.name ++
        [ "#define " ++ img.name ++ "_width " ++ fmt_d img.width ++ "\n",
          "#define " ++ img.name ++ "_height " ++ fmt_d img.height ++ "\n",
          "#define " ++ img.name ++ "_size " ++ fmt_d img.orig_size ++ "\n",
          "#define " ++ img.name ++ "_compressed_size " ++ fmt_d img.size ++ "\n",
          "extern unsigned char " ++ img.name ++ "_compressed[" ++ fmt_d img.size ++
            "];\n" ] ++
        header_close := by
  simp [output_c_image_header, header_open, header_close, hc]

/-- Claim C2. For every image with `compressed = false` the header written by
`output_c_image` consists of the opening boilerplate, exactly the lines
`#define <name>_width <width>`, `#define <name>_height <height>`,
`#define <name>_size <orig_size>`, `#define <name> ((T*)<name>_data)` and
`extern unsigned char <name>_data[<size>];` with `T` the sprite structure
selected by `rlet`, and the closing boilerplate; this text is what the header
path holds after the operation; and no line of it defines
`<name>_compressed...` or declares `<name>_compressed...`. -/
theorem C2_image_header_uncompressed (fs : file_system) (img : image)
    (hc : img.compressed = false)
    (ho : fs.can_open (strdupcat img.directory ".h") = true) :
    output_c_image_header img
      = header_open img.name ++
        [ "#define " ++ img.name ++ "_width " ++ fmt_d img.width ++ "\n",
          "#define " ++ img.name ++ "_height " ++ fmt_d img.height ++ "\n",
          "#define " ++ img.name ++ "_size " ++ fmt_d img.orig_size ++ "\n",
          "#define " ++ img.name ++ " ((" ++ sprite_type img.rlet ++ "*)" ++
            img.name ++ "_data)\n",
          "extern unsigned char " ++ img.name ++ "_data[" ++ fmt_d img.size ++ "];\n" ] ++
        header_close
    ∧ (output_c_image fs img).2.files (strdupcat img.directory ".h")
        = some (String.join (output_c_image_header img))
    ∧ ∀ l ∈ output_c_image_header img, ∀ rest : String,
        l ≠ "#define " ++ img.name ++ "_compressed" ++ rest ∧
        l ≠ "extern unsigned char " ++ img.name ++ "_compressed" ++ rest := by
  refine ⟨image_header_uncompressed_eq img hc, ?_, ?_⟩
  · rw [output_c_image_eq]; exact emit_pair_header _ _ _ _ ho
  · rw [image_header_uncompressed_eq img hc]
    simp only [header_open, header_close, sprite_type, List.cons_append, List.nil_append,
      List.forall_mem_cons]
    repeat' apply And.intro
    all_goals
      first
      | (intro l hl; exact absurd hl (List.not_mem_nil l))
      | (intro rest
         constructor <;>
         · intro h
           have h2 := congrArg String.data h
           cases img.rlet <;> simp [String.data_append] at h2)

set_option maxRecDepth 100000 in
/-- Witness of C2: the example image `foo` (size 10, width 4, height 2, not
compressed, not rlet) on the empty file system. -/
theorem C2_image_header_uncompressed_witness :
    image_foo.compressed = false ∧
    fs_empty.can_open (strdupcat image_foo.directory ".h") = true ∧
    (output_c_image fs_empty image_foo).2.files (strdupcat image_foo.directory ".h")
      = some ("#ifndef foo_include_file\n#define foo_include_file\n\n" ++
          "#ifdef __cplusplus\nextern \"C\" \x7b\n#endif\n\n" ++
          "#define foo_width 4\n#define foo_height 2\n#define foo_size 10\n" ++
          "#define foo ((gfx_sprite_t*)foo_data)\n" ++
          "extern unsigned char foo_data[10];\n" ++
          "\n#ifdef __cplusplus\n\x7d\n#endif\n\n#endif\n") :=
  ⟨rfl, rfl, (C2_image_header_uncompressed fs_empty image_foo rfl rfl).2.1.trans (by decide)⟩

/-- Claim C3. For every image with `compressed = true` the header written by
`output_c_image` consists of the boilerplate around exactly the lines
`#define <name>_width <width>`, `#define <name>_height <height>`,
`#define <name>_size <orig_size>` (from `orig_size`, not `size`),
`#define <name>_compressed_size <size>` and
`extern unsigned char <name>_compressed[<size>];`; no line of it is the
`<name>` cast definition or declares `<name>_data`; and the whole operation
(status and both files) is the same for `rlet = true` and `rlet = false`. -/
theorem C3_image_header_compressed (fs : file_system) (img : image)
    (hc : img.compressed = true)
    (ho : fs.can_open (strdupcat img.directory ".h") = true) :
    output_c_image_header img
      = header_open img.name ++
        [ "#define " ++ img.name ++ "_width " ++ fmt_d img.width ++ "\n",
          "#define " ++ img.name ++ "_height " ++ fmt_d img.height ++ "\n",
          "#define " ++ img.name ++ "_size " ++ fmt_d img.orig_size ++ "\n",
          "#define " ++ img.name ++ "_compressed_size " ++ fmt_d img.size ++ "\n",
          "extern unsigned char " ++ img.name ++ "_compressed[" ++ fmt_d img.size ++
            "];\n" ] ++
        header_close
    ∧ (output_c_image fs img).2.files (strdupcat img.directory ".h")
        = some (String.join (output_c_image_header img))
    ∧ (∀ l ∈ output_c_image_header img, ∀ rest : String,
        l ≠ "#define " ++ img.name ++ " " ++ rest ∧
        l ≠ "extern unsigned char " ++ img.name ++ "_data" ++ rest)
    ∧ output_c_image fs { img with rlet := true }
        = output_c_image fs { img with rlet := false } := by
  refine ⟨image_header_compressed_eq img hc, ?_, ?_, ?_⟩
  · rw [output_c_image_eq]; exact emit_pair_header _ _ _ _ ho
  · rw [image_header_compressed_eq img hc]
    simp only [header_open, header_close, List.cons_append, List.nil_append,
      List.forall_mem_cons]
    repeat' apply And.intro
    all_goals
      first
      | (intro l hl; exact absurd hl (List.not_mem_nil l))
      | (intro rest
         constructor <;>
         · intro h
           have h2 := congrArg String.data h
           simp [String.data_append] at h2)
  · have e1 : output_c_image_header { img with rlet := true }
        = output_c_image_header { img with rlet := false } := by
      simp [output_c_image_header, hc]
    have e2 : output_c_image_source { img with rlet := true }
        = output_c_image_source { img with rlet := false } := by
      simp [output_c_image_source, hc]
    rw [output_c_image_eq, output_c_image_eq, e1, e2]

set_option maxRecDepth 100000 in
/-- Witness of C3: the compressed image `bar` on the empty file system. -/
theorem C3_image_header_compressed_witness :
    image_bar.compressed = true ∧
    fs_empty.can_open (strdupcat image_bar.directory ".h") = true ∧
    (output_c_image fs_empty image_bar).2.files (strdupcat image_bar.directory ".h")
      = some ("#ifndef bar_include_file\n#define bar_include_file\n\n" ++
          "#ifdef __cplusplus\nextern \"C\" \x7b\n#endif\n\n" ++
          "#define bar_width 4\n#define bar_height 2\n#define bar_size 8\n" ++
          "#define bar_compressed_size 3\n" ++
          "extern unsigned char bar_compressed[3];\n" ++
          "\n#ifdef __cplusplus\n\x7d\n#endif\n\n#endif\n") :=
  ⟨rfl, rfl, (C3_image_header_compressed fs_empty image_bar rfl rfl).2.1.trans (by decide)⟩

theorem size_t_of_int_length (n : Nat) (h : (n : Int) < 2 ^ 31) :
    size_t_of_int (n : Int) = n := by
  unfold size_t_of_int
  have h2 : ((n : Int) % 2 ^ 64) = n := Int.emod_eq_of_lt (by omega) (by omega)
  rw [h2]; simp

/-- Claim C4. For every image whose `size` field equals the length of its data
buffer (a C `int`, bytes in 0..255) the source file written by
`output_c_image` is exactly `unsigned char <name>_compressed[<size>] =` (if
compressed) or `unsigned char <name>_data[<size>] =` (otherwise), a newline
and the opening brace, followed by the shared formatter's output over the data
buffer; the same array symbol with the same bracketed size is the header's
extern declaration; and that size is the number of hex tokens of the
initializer. -/
theorem C4_image_source (fs : file_system) (img : image)
    (hsz : img.size = (img.data.length : Int)) (hint : img.size < 2 ^ 31)
    (hb : ∀ x ∈ img.data, x < 256)
    (ho : fs.can_open (strdupcat img.directory ".h") = true)
    (hs : fs.can_open (strdupcat img.directory ".c") = true) :
    (output_c_image fs img).2.files (strdupcat img.directory ".c")
      = some ("unsigned char " ++ img.name ++
          (if img.compressed then "_compressed" else "_data") ++
          "[" ++ fmt_d img.size ++ "]" ++ " =\n\x7b" ++
          output_c img.data img.data.length)
    ∧ ("extern " ++ ("unsigned char " ++ img.name ++
          (if img.compressed then "_compressed" else "_data") ++
          "[" ++ fmt_d img.size ++ "]") ++ ";\n") ∈ output_c_image_header img
    ∧ (countHexTokens (output_c img.data img.data.length).data : Int) = img.size := by
  have hlen : size_t_of_int img.size = img.data.length := by
    rw [hsz]; exact size_t_of_int_length _ (hsz ▸ hint)
  refine ⟨?_, ?_, ?_⟩
  · rw [output_c_image_eq, (emit_pair_source _ _ _ _ ho hs).2]
    congr 1
    unfold output_c_image_source
    rw [hlen]
    cases img.compressed <;> simp [String.append_assoc]
  · have e : ∀ t : String, "extern " ++ ("unsigned char " ++ img.name ++ t ++
          "[" ++ fmt_d img.size ++ "]") ++ ";\n"
        = "extern unsigned char " ++ img.name ++ t ++ "[" ++ fmt_d img.size ++ "];\n" := by
      intro t
      apply String.ext
      simp [String.data_append]
    rw [e]
    unfold output_c_image_header
    cases img.compressed <;> simp [String.append_assoc]
  · rw [output_c_token_count _ hb, hsz]

set_option maxRecDepth 100000 in
/-- Witness of C4: the example image `foo` on the empty file system. -/
theorem C4_image_source_witness :
    image_foo.size = (image_foo.data.length : Int) ∧ image_foo.size < 2 ^ 31 ∧
    (∀ x ∈ image_foo.data, x < 256) ∧
    (output_c_image fs_empty image_foo).2.files (strdupcat image_foo.directory ".c")
      = some ("unsigned char foo_data[10] =\n\x7b\n" ++
          "    0x00,0x01,0x02,0x03,0x04,0x05,0x06,0x07,0x08,0xff\n\x7d;\n") :=
  ⟨by decide, by decide, by decide,
    (C4_image_source fs_empty image_foo (by decide) (by decide) (by decide) rfl rfl).1.trans
      (by decide)⟩

/-! ## The palette operation -/

theorem digitChar_ne_x (k : Nat) : Nat.digitChar k ≠ 'x' := by
  by_cases h : k < 16
  · exact (by decide : ∀ j < 16, Nat.digitChar j ≠ 'x') k h
  · have e : Nat.digitChar k = '*' := by
      unfold Nat.digitChar
      iterate 16 rw [if_neg (by omega)]
    rw [e]; decide

theorem toDigitsCore_no_x (b : Nat) : ∀ (fuel n : Nat) (ds : List Char),
    'x' ∉ ds → 'x' ∉ Nat.toDigitsCore b fuel n ds := by
  intro fuel
  induction fuel with
  | zero => intro n ds h; simpa [Nat.toDigitsCore] using h
  | succ f ih =>
    intro n ds h
    have hd : 'x' ∉ Nat.digitChar (n % b) :: ds := by
      simp only [List.mem_cons, not_or]
      exact ⟨fun e => digitChar_ne_x _ e.symm, h⟩
    unfold Nat.toDigitsCore
    by_cases hz : n / b = 0
    · simp only [hz, if_true]; exact hd
    · simp only [hz, if_false]; exact ih _ _ hd

theorem fmt_u_no_x (n : Nat) : 'x' ∉ (fmt_u n).data :=
  toDigitsCore_no_x 10 _ _ _ (List.not_mem_nil _)

theorem fmt_d_no_x (n : Int) : 'x' ∉ (fmt_d n).data := by
  cases n with
  | ofNat m => exact fmt_u_no_x m
  | negSucc m =>
    have h := fmt_u_no_x (m + 1)
    simp only [fmt_d, String.data_append, List.mem_append, not_or]
    exact ⟨by decide, h⟩

theorem fmt_3d_no_x (n : Int) : 'x' ∉ (fmt_3d n).data := by
  have h := fmt_d_no_x n
  simp only [fmt_3d, pad_left, String.data_append, List.mem_append, not_or]
  refine ⟨?_, h⟩
  intro hm
  have := List.eq_of_mem_replicate hm
  exact absurd this (by decide)

theorem quiet_of_no_x (l : List Char) (h : 'x' ∉ l) : quiet l := by
  induction l with
  | nil => exact ⟨by simp, rfl⟩
  | cons c cs ih =>
    have hc : c ≠ 'x' := fun e => h (e ▸ List.mem_cons_self _ _)
    have hcs : 'x' ∉ cs := fun m => h (List.mem_cons_of_mem _ m)
    obtain ⟨h1, h2⟩ := ih hcs
    refine ⟨by simpa using hc, ?_⟩
    unfold countHexTokens
    rw [h2]
    simp [h1]

theorem quiet_append (a b : List Char) (ha : quiet a) (hb : quiet b) : quiet (a ++ b) := by
  refine ⟨?_, ?_⟩
  · rw [List.head?_append]
    cases a with
    | nil => simpa using hb.1
    | cons c cs => simpa using ha.1
  · rw [countHexTokens_append _ _ hb.1, ha.2, hb.2]

theorem quiet_fmt_3d (n : Int) : quiet (fmt_3d n).data := quiet_of_no_x _ (fmt_3d_no_x n)

theorem countHexTokens_append_quiet (a b : List Char) (hb : quiet b) :
    countHexTokens (a ++ b) = countHexTokens a := by
  rw [countHexTokens_append _ _ hb.1, hb.2, Nat.add_zero]

set_option maxRecDepth 1000000 in
theorem token_count_lo : ∀ n < 256, countHexTokens ("    0x" ++ hex2 n).data = 1 := by decide

set_option maxRecDepth 1000000 in
theorem token_count_hi : ∀ n < 256,
    countHexTokens (", 0x" ++ hex2 n ++ ", /* ").data = 1 ∧
    (", 0x" ++ hex2 n ++ ", /* ").data.head? ≠ some 'x' := by decide

theorem and_255 (t : Nat) : t &&& 255 = t % 256 := Nat.and_pow_two_sub_one_eq_mod t 8

theorem shr_8_and_255 (t : Nat) : (t >>> 8) &&& 255 = t / 256 % 256 := by
  rw [and_255, Nat.shiftRight_eq_div_pow t 8]

theorem palette_line_at (p : palette) (hn : p.nr_entries = (p.entries.length : Int))
    (i : Nat) (e : palette_entry) (he : p.entries[i]? = some e) :
    (output_c_palette_lines p)[i]? = some (output_c_palette_entry i e) := by
  have hi : i < p.entries.length := by
    rcases Nat.lt_or_ge i p.entries.length with h | h
    · exact h
    · rw [List.getElem?_eq_none h] at he; exact absurd he (by simp)
  unfold output_c_palette_lines
  rw [List.getElem?_map, hn, Int.toNat_ofNat, List.getElem?_range hi]
  simp only [Option.map_some', List.getD_eq_getElem?_getD, he, Option.getD_some]

theorem palette_entry_exact (i : Nat) (e : palette_entry) (hx : e.exact = true) :
    output_c_palette_entry i e
      = "    0x" ++ hex2 (e.color.target % 256) ++
        ", 0x" ++ hex2 (e.color.target / 256 % 256) ++
        ", /* " ++ fmt_3d i ++
        ": rgb(" ++ fmt_3d e.color.rgb.r ++ ", " ++ fmt_3d e.color.rgb.g ++ ", " ++
        fmt_3d e.color.rgb.b ++
        ") [exact original: rgb(" ++ fmt_3d e.orig_color.rgb.r ++ ", " ++
        fmt_3d e.orig_color.rgb.g ++ ", " ++ fmt_3d e.orig_color.rgb.b ++ ")] */\n" := by
  unfold output_c_palette_entry
  rw [and_255, shr_8_and_255, fmt_02x_byte _ (Nat.mod_lt _ (by decide)),
    fmt_02x_byte _ (Nat.mod_lt _ (by decide))]
  simp [hx]

theorem palette_entry_plain (i : Nat) (e : palette_entry) (hx : e.exact = false)
    (hv : e.valid = true) :
    output_c_palette_entry i e
      = "    0x" ++ hex2 (e.color.target % 256) ++
        ", 0x" ++ hex2 (e.color.target / 256 % 256) ++
        ", /* " ++ fmt_3d i ++
        ": rgb(" ++ fmt_3d e.color.rgb.r ++ ", " ++ fmt_3d e.color.rgb.g ++ ", " ++
        fmt_3d e.color.rgb.b ++ ") */\n" := by
  unfold output_c_palette_entry
  rw [and_255, shr_8_and_255, fmt_02x_byte _ (Nat.mod_lt _ (by decide)),
    fmt_02x_byte _ (Nat.mod_lt _ (by decide))]
  simp [hx, hv]

theorem palette_entry_unused (i : Nat) (e : palette_entry) (hx : e.exact = false)
    (hv : e.valid = false) :
    output_c_palette_entry i e = "    0x00, 0x00, /* " ++ fmt_3d i ++ ": (unused) */\n" := by
  unfold output_c_palette_entry
  simp [hx, hv]

theorem fmt_3d_nat (n : Nat) (h : n < 1000) : fmt_3d (n : Int) = rjust3 n :=
  fmt_3d_small n h

theorem quiet_lit (s : String) (h : s.data.head? ≠ some 'x' ∧ countHexTokens s.data = 0) :
    quiet s.data := h

theorem quiet_sapp (s t : String) (hs : quiet s.data) (ht : quiet t.data) :
    quiet (s ++ t).data := by
  rw [String.data_append]; exact quiet_append _ _ hs ht

theorem quiet_rgb (i r g b : Int) :
    quiet (fmt_3d i ++ ": rgb(" ++ fmt_3d r ++ ", " ++ fmt_3d g ++ ", " ++ fmt_3d b).data :=
  have q1 : quiet (": rgb(" : String).data := quiet_lit _ (by decide)
  have q2 : quiet (", " : String).data := quiet_lit _ (by decide)
  quiet_sapp _ _ (quiet_sapp _ _ (quiet_sapp _ _ (quiet_sapp _ _ (quiet_sapp _ _
    (quiet_sapp _ _ (quiet_fmt_3d i) q1) (quiet_fmt_3d r)) q2) (quiet_fmt_3d g)) q2)
    (quiet_fmt_3d b)

theorem palette_entry_shape (i : Nat) (e : palette_entry) :
    ∃ (a b : Nat) (rest : String), a < 256 ∧ b < 256 ∧ quiet rest.data ∧
      output_c_palette_entry i e
        = "    0x" ++ hex2 a ++ ", 0x" ++ hex2 b ++ ", /* " ++ rest := by
  have q2 : quiet (", " : String).data := quiet_lit _ (by decide)
  have q3 : quiet (") [exact original: rgb(" : String).data := quiet_lit _ (by decide)
  have q4 : quiet (")] */\n" : String).data := quiet_lit _ (by decide)
  have q5 : quiet (") */\n" : String).data := quiet_lit _ (by decide)
  have q6 : quiet (": (unused) */\n" : String).data := quiet_lit _ (by decide)
  have hm : ∀ t : Nat, t % 256 < 256 := fun t => Nat.mod_lt _ (by decide)
  cases hx : e.exact with
  | true =>
    refine ⟨e.color.target % 256, e.color.target / 256 % 256,
      fmt_3d i ++ ": rgb(" ++ fmt_3d e.color.rgb.r ++ ", " ++ fmt_3d e.color.rgb.g ++ ", " ++
        fmt_3d e.color.rgb.b ++ ") [exact original: rgb(" ++ fmt_3d e.orig_color.rgb.r ++
        ", " ++ fmt_3d e.orig_color.rgb.g ++ ", " ++ fmt_3d e.orig_color.rgb.b ++ ")] */\n",
      hm _, hm _, ?_, ?_⟩
    · exact quiet_sapp _ _ (quiet_sapp _ _ (quiet_sapp _ _ (quiet_sapp _ _ (quiet_sapp _ _
        (quiet_sapp _ _ (quiet_sapp _ _ (quiet_rgb _ _ _ _) q3) (quiet_fmt_3d _)) q2)
        (quiet_fmt_3d _)) q2) (quiet_fmt_3d _)) q4
    · rw [palette_entry_exact i e hx]
      simp only [String.append_assoc]
  | false =>
    cases hv : e.valid with
    | true =>
      refine ⟨e.color.target % 256, e.color.target / 256 % 256,
        fmt_3d i ++ ": rgb(" ++ fmt_3d e.color.rgb.r ++ ", " ++ fmt_3d e.color.rgb.g ++
          ", " ++ fmt_3d e.color.rgb.b ++ ") */\n",
        hm _, hm _, ?_, ?_⟩
      · exact quiet_sapp _ _ (quiet_rgb _ _ _ _) q5
      · rw [palette_entry_plain i e hx hv]
        simp only [String.append_assoc]
    | false =>
      refine ⟨0, 0, fmt_3d i ++ ": (unused) */\n", by decide, by decide, ?_, ?_⟩
      · exact quiet_sapp _ _ (quiet_fmt_3d _) q6
      · rw [palette_entry_unused i e hx hv]
        apply String.ext
        simp [String.data_append, hex2, hexChar]

theorem shape_token_count (a b : Nat) (rest : String) (ha : a < 256) (hb : b < 256)
    (hq : quiet rest.data) :
    countHexTokens ("    0x" ++ hex2 a ++ ", 0x" ++ hex2 b ++ ", /* " ++ rest).data = 2 ∧
    ("    0x" ++ hex2 a ++ ", 0x" ++ hex2 b ++ ", /* " ++ rest).data.head? ≠ some 'x' := by
  have e : ("    0x" ++ hex2 a ++ ", 0x" ++ hex2 b ++ ", /* " ++ rest).data
      = ("    0x" ++ hex2 a).data ++ ((", 0x" ++ hex2 b ++ ", /* ").data ++ rest.data) := by
    simp [String.data_append]
  have h2 := token_count_hi b hb
  refine ⟨?_, ?_⟩
  · rw [e, countHexTokens_append, token_count_lo a ha, countHexTokens_append_quiet _ _ hq,
      h2.1]
    rw [List.head?_append]
    intro h
    cases hh : (", 0x" ++ hex2 b ++ ", /* ").data.head? with
    | none => simp [String.data_append] at hh
    | some c => rw [hh] at h; simp only [Option.or_some] at h; exact h2.2 (hh.trans h)
  · rw [e]; simp [String.data_append]

theorem palette_lines_token_count (ls : List String)
    (h : ∀ l ∈ ls, countHexTokens l.data = 2 ∧ l.data.head? ≠ some 'x') :
    countHexTokens (String.join ls).data = 2 * ls.length := by
  rw [String.data_join, countHexTokens_flatten]
  · rw [List.map_map]
    have hc : ∀ l ∈ ls, (countHexTokens ∘ String.data) l = 2 := fun l hl => (h l hl).1
    rw [List.map_congr_left hc]
    simp [Nat.mul_comm]
  · intro l hl
    simp only [List.mem_map] at hl
    obtain ⟨t, ht, rfl⟩ := hl
    exact (h t ht).2

theorem int_wrap_small (x : Int) (h0 : 0 ≤ x) (h1 : x < 2 ^ 31) : int_wrap x = x := by
  unfold int_wrap
  omega

theorem palette_size_eq (p : palette) (hn : p.nr_entries = (p.entries.length : Int))
    (h2 : 2 * (p.entries.length : Int) < 2 ^ 31) :
    output_c_palette_size p = 2 * (p.entries.length : Int) := by
  unfold output_c_palette_size
  rw [hn, int_wrap_small _ (by omega) (by omega)]
  omega

/-! ### The palette source file, line by line -/

theorem digitChar_ne_nl (k : Nat) : Nat.digitChar k ≠ '\n' := by
  by_cases h : k < 16
  · exact (by decide : ∀ j < 16, Nat.digitChar j ≠ '\n') k h
  · have e : Nat.digitChar k = '*' := by
      unfold Nat.digitChar
      iterate 16 rw [if_neg (by omega)]
    rw [e]; decide

theorem toDigitsCore_no_nl (b : Nat) : ∀ (fuel n : Nat) (ds : List Char),
    '\n' ∉ ds → '\n' ∉ Nat.toDigitsCore b fuel n ds := by
  intro fuel
  induction fuel with
  | zero => intro n ds h; simpa [Nat.toDigitsCore] using h
  | succ f ih =>
    intro n ds h
    have hd : '\n' ∉ Nat.digitChar (n % b) :: ds := by
      simp only [List.mem_cons, not_or]
      exact ⟨fun e => digitChar_ne_nl _ e.symm, h⟩
    unfold Nat.toDigitsCore
    by_cases hz : n / b = 0
    · simp only [hz, if_true]; exact hd
    · simp only [hz, if_false]; exact ih _ _ hd

theorem fmt_3d_no_nl (n : Int) : '\n' ∉ (fmt_3d n).data := by
  have hu : ∀ m : Nat, '\n' ∉ (fmt_u m).data :=
    fun m => toDigitsCore_no_nl 10 _ _ _ (List.not_mem_nil _)
  have hd : '\n' ∉ (fmt_d n).data := by
    cases n with
    | ofNat m => exact hu m
    | negSucc m =>
      simp only [fmt_d, String.data_append, List.mem_append, not_or]
      exact ⟨by decide, hu (m + 1)⟩
  simp only [fmt_3d, pad_left, String.data_append, List.mem_append, not_or]
  refine ⟨?_, hd⟩
  intro hm
  have := List.eq_of_mem_replicate hm
  exact absurd this (by decide)

set_option maxRecDepth 1000000 in
theorem hex2_no_nl : ∀ n < 256, '\n' ∉ (hex2 n).data := by decide

theorem no_nl_append (s t : String) (hs : '\n' ∉ s.data) (ht : '\n' ∉ t.data) :
    '\n' ∉ (s ++ t).data := by
  rw [String.data_append, List.mem_append, not_or]
  exact ⟨hs, ht⟩

theorem no_nl_rgb (i r g b : Int) :
    '\n' ∉ (fmt_3d i ++ ": rgb(" ++ fmt_3d r ++ ", " ++ fmt_3d g ++ ", " ++ fmt_3d b).data :=
  no_nl_append _ _ (no_nl_append _ _ (no_nl_append _ _ (no_nl_append _ _ (no_nl_append _ _
    (no_nl_append _ _ (fmt_3d_no_nl i) (by decide)) (fmt_3d_no_nl r)) (by decide))
    (fmt_3d_no_nl g)) (by decide)) (fmt_3d_no_nl b)

theorem no_nl_bytes (a b : Nat) (ha : a < 256) (hb : b < 256) :
    '\n' ∉ ("    0x" ++ hex2 a ++ ", 0x" ++ hex2 b ++ ", /* ").data :=
  no_nl_append _ _ (no_nl_append _ _ (no_nl_append _ _ (no_nl_append _ _ (by decide)
    (hex2_no_nl a ha)) (by decide)) (hex2_no_nl b hb)) (by decide)

theorem palette_entry_one_line (i : Nat) (e : palette_entry) :
    one_line (output_c_palette_entry i e) := by
  have hm : ∀ t : Nat, t % 256 < 256 := fun t => Nat.mod_lt _ (by decide)
  cases hx : e.exact with
  | true =>
    refine ⟨"    0x" ++ hex2 (e.color.target % 256) ++
        ", 0x" ++ hex2 (e.color.target / 256 % 256) ++ ", /* " ++
        (fmt_3d i ++ ": rgb(" ++ fmt_3d e.color.rgb.r ++ ", " ++ fmt_3d e.color.rgb.g ++
          ", " ++ fmt_3d e.color.rgb.b) ++
        ") [exact original: rgb(" ++ fmt_3d e.orig_color.rgb.r ++ ", " ++
        fmt_3d e.orig_color.rgb.g ++ ", " ++ fmt_3d e.orig_color.rgb.b ++ ")] */", ?_, ?_⟩
    · rw [palette_entry_exact i e hx]
      apply String.ext
      simp [String.data_append]
    · exact no_nl_append _ _ (no_nl_append _ _ (no_nl_append _ _ (no_nl_append _ _
        (no_nl_append _ _ (no_nl_append _ _ (no_nl_append _ _ (no_nl_append _ _
          (no_nl_bytes _ _ (hm _) (hm _)) (no_nl_rgb _ _ _ _)) (by decide))
          (fmt_3d_no_nl _)) (by decide)) (fmt_3d_no_nl _)) (by decide)) (fmt_3d_no_nl _))
        (by decide)
  | false =>
    cases hv : e.valid with
    | true =>
      refine ⟨"    0x" ++ hex2 (e.color.target % 256) ++
          ", 0x" ++ hex2 (e.color.target / 256 % 256) ++ ", /* " ++
          (fmt_3d i ++ ": rgb(" ++ fmt_3d e.color.rgb.r ++ ", " ++ fmt_3d e.color.rgb.g ++
            ", " ++ fmt_3d e.color.rgb.b) ++ ") */", ?_, ?_⟩
      · rw [palette_entry_plain i e hx hv]
        apply String.ext
        simp [String.data_append]
      · exact no_nl_append _ _ (no_nl_append _ _ (no_nl_bytes _ _ (hm _) (hm _))
          (no_nl_rgb _ _ _ _)) (by decide)
    | false =>
      refine ⟨"    0x00, 0x00, /* " ++ fmt_3d i ++ ": (unused) */", ?_, ?_⟩
      · rw [palette_entry_unused i e hx hv]
        apply String.ext
        simp [String.data_append]
      · exact no_nl_append _ _ (no_nl_append _ _ (by decide) (fmt_3d_no_nl _)) (by decide)

theorem join_append (a b : List String) :
    String.join (a ++ b) = String.join a ++ String.join b := by
  apply String.ext
  simp [String.data_join, String.data_append]

theorem join_singleton (x : String) : String.join [x] = x := by
  apply String.ext
  simp [String.data_join]

theorem join_cons (x : String) (l : List String) :
    String.join (x :: l) = x ++ String.join l := by
  apply String.ext
  simp [String.data_join, String.data_append]

theorem palette_file_line_at (fs : file_system) (p : palette) (i : Nat) (e : palette_entry)
    (hn : p.nr_entries = (p.entries.length : Int)) (he : p.entries[i]? = some e)
    (ho : fs.can_open (strdupcat p.directory ".h") = true)
    (hs : fs.can_open (strdupcat p.directory ".c") = true) :
    palette_file_line fs p i (output_c_palette_entry i e) := by
  have hat := palette_line_at p hn i e he
  have hlt : i < (output_c_palette_lines p).length := by
    rcases Nat.lt_or_ge i (output_c_palette_lines p).length with h | h
    · exact h
    · rw [List.getElem?_eq_none h] at hat; exact absurd hat (by simp)
  have hget : (output_c_palette_lines p)[i] = output_c_palette_entry i e := by
    rw [List.getElem?_eq_getElem hlt] at hat
    exact Option.some.inj hat
  have hall : ∀ l ∈ output_c_palette_lines p, one_line l := by
    intro l hl
    simp only [output_c_palette_lines, List.mem_map] at hl
    obtain ⟨j, _, rfl⟩ := hl
    exact palette_entry_one_line j _
  have hsplit : output_c_palette_lines p
      = (output_c_palette_lines p).take i ++
        ([output_c_palette_entry i e] ++ (output_c_palette_lines p).drop (i + 1)) := by
    rw [← hget, List.singleton_append, ← List.drop_eq_getElem_cons hlt,
      List.take_append_drop]
  refine ⟨(output_c_palette_lines p).take i, (output_c_palette_lines p).drop (i + 1),
    ?_, ?_, ?_, ?_⟩
  · rw [List.length_take]; omega
  · exact fun l hl => hall l (List.mem_of_mem_take hl)
  · exact fun l hl => hall l (List.mem_of_mem_drop hl)
  · rw [output_c_palette_eq, (emit_pair_source _ _ _ _ ho hs).2]
    congr 1
    have hj : String.join (output_c_palette_lines p)
        = String.join ((output_c_palette_lines p).take i) ++ output_c_palette_entry i e ++
          String.join ((output_c_palette_lines p).drop (i + 1)) := by
      conv_lhs => rw [hsplit]
      rw [join_append, join_append, join_singleton, String.append_assoc]
    unfold output_c_palette_source
    rw [hj]
    simp only [String.append_assoc]

/-- Claim C5. For every palette and every entry index `i < 1000` whose entry
has its six channels in 0..255, `output_c_palette` writes entry `i` as line
`i` of the initializer of the source file, in palette order: if the entry is
exact, four spaces, `0xLL, 0xHH,`, and the comment
`<i>: rgb(<r>, <g>, <b>) [exact original: rgb(<or>, <og>, <ob>)]`; if it is
valid and not exact, the same with the comment `<i>: rgb(<r>, <g>, <b>)` and
no original part; `LL`/`HH` are the two-digit lowercase hex of the low and
high byte of the target, and the index and every channel are right-justified
with spaces to exactly 3 characters. -/
theorem C5_palette_entry_lines (fs : file_system) (p : palette) (i : Nat)
    (e : palette_entry)
    (hn : p.nr_entries = (p.entries.length : Int)) (he : p.entries[i]? = some e)
    (hi : i < 1000)
    (hr : e.color.rgb.r < 256) (hg : e.color.rgb.g < 256) (hb : e.color.rgb.b < 256)
    (hor : e.orig_color.rgb.r < 256) (hog : e.orig_color.rgb.g < 256)
    (hob : e.orig_color.rgb.b < 256)
    (ho : fs.can_open (strdupcat p.directory ".h") = true)
    (hs : fs.can_open (strdupcat p.directory ".c") = true) :
    (e.exact = true →
      palette_file_line fs p i
        ("    0x" ++ hex2 (e.color.target % 256) ++
         ", 0x" ++ hex2 (e.color.target / 256 % 256) ++
         ", /* " ++ rjust3 i ++
         ": rgb(" ++ rjust3 e.color.rgb.r ++ ", " ++ rjust3 e.color.rgb.g ++ ", " ++
         rjust3 e.color.rgb.b ++
         ") [exact original: rgb(" ++ rjust3 e.orig_color.rgb.r ++ ", " ++
         rjust3 e.orig_color.rgb.g ++ ", " ++ rjust3 e.orig_color.rgb.b ++ ")] */\n") ∧
      (output_c_palette_lines p)[i]? = some
        ("    0x" ++ hex2 (e.color.target % 256) ++
         ", 0x" ++ hex2 (e.color.target / 256 % 256) ++
         ", /* " ++ rjust3 i ++
         ": rgb(" ++ rjust3 e.color.rgb.r ++ ", " ++ rjust3 e.color.rgb.g ++ ", " ++
         rjust3 e.color.rgb.b ++
         ") [exact original: rgb(" ++ rjust3 e.orig_color.rgb.r ++ ", " ++
         rjust3 e.orig_color.rgb.g ++ ", " ++ rjust3 e.orig_color.rgb.b ++ ")] */\n"))
    ∧ (e.exact = false → e.valid = true →
      palette_file_line fs p i
        ("    0x" ++ hex2 (e.color.target % 256) ++
         ", 0x" ++ hex2 (e.color.target / 256 % 256) ++
         ", /* " ++ rjust3 i ++
         ": rgb(" ++ rjust3 e.color.rgb.r ++ ", " ++ rjust3 e.color.rgb.g ++ ", " ++
         rjust3 e.color.rgb.b ++ ") */\n") ∧
      (output_c_palette_lines p)[i]? = some
        ("    0x" ++ hex2 (e.color.target % 256) ++
         ", 0x" ++ hex2 (e.color.target / 256 % 256) ++
         ", /* " ++ rjust3 i ++
         ": rgb(" ++ rjust3 e.color.rgb.r ++ ", " ++ rjust3 e.color.rgb.g ++ ", " ++
         rjust3 e.color.rgb.b ++ ") */\n"))
    ∧ (∀ n ∈ [i, e.color.rgb.r, e.color.rgb.g, e.color.rgb.b, e.orig_color.rgb.r,
          e.orig_color.rgb.g, e.orig_color.rgb.b], (rjust3 n).length = 3) := by
  have h3 : ∀ n : Nat, n < 256 → fmt_3d (n : Int) = rjust3 n :=
    fun n h => fmt_3d_nat n (by omega)
  have hfile := palette_file_line_at fs p i e hn he ho hs
  have hat := palette_line_at p hn i e he
  refine ⟨?_, ?_, ?_⟩
  · intro hx
    rw [palette_entry_exact i e hx, fmt_3d_nat i hi,
      h3 _ hr, h3 _ hg, h3 _ hb, h3 _ hor, h3 _ hog, h3 _ hob] at hfile hat
    exact ⟨hfile, hat⟩
  · intro hx hv
    rw [palette_entry_plain i e hx hv, fmt_3d_nat i hi,
      h3 _ hr, h3 _ hg, h3 _ hb] at hfile hat
    exact ⟨hfile, hat⟩
  · intro n hnm
    apply rjust3_length
    simp only [List.mem_cons, List.mem_singleton, List.not_mem_nil, or_false] at hnm
    rcases hnm with h | h | h | h | h | h | h <;> subst h <;> omega

set_option maxRecDepth 100000 in
/-- Witness of C5: entries 0 (exact) and 2 (valid, not exact) of the example
palette, written on the empty file system. -/
theorem C5_palette_entry_lines_witness :
    palette_example.nr_entries = (palette_example.entries.length : Int) ∧
    palette_example.entries[0]? = some entry_exact ∧ entry_exact.exact = true ∧
    palette_example.entries[2]? = some entry_plain ∧ entry_plain.exact = false ∧
    entry_plain.valid = true ∧
    palette_file_line fs_empty palette_example 0
      "    0x34, 0x12, /*   0: rgb( 10,  20,  30) [exact original: rgb( 10,  20,  30)] */\n" ∧
    palette_file_line fs_empty palette_example 2
      "    0xcd, 0xab, /*   2: rgb(  1,   2,   3) */\n" ∧
    (output_c_palette fs_empty palette_example).2.files
        (strdupcat palette_example.directory ".c")
      = some ("unsigned char pal[6] =\n\x7b\n" ++
        "    0x34, 0x12, /*   0: rgb( 10,  20,  30) [exact original: rgb( 10,  20,  30)] */\n" ++
        "    0x00, 0x00, /*   1: (unused) */\n" ++
        "    0xcd, 0xab, /*   2: rgb(  1,   2,   3) */\n" ++
        "\x7d;\n") := by
  have h0 := (C5_palette_entry_lines fs_empty palette_example 0 entry_exact rfl rfl
    (by decide) (by decide) (by decide) (by decide) (by decide) (by decide) (by decide)
    rfl rfl).1 rfl
  have h2 := (C5_palette_entry_lines fs_empty palette_example 2 entry_plain rfl rfl
    (by decide) (by decide) (by decide) (by decide) (by decide) (by decide) (by decide)
    rfl rfl).2.1 rfl rfl
  refine ⟨rfl, rfl, rfl, rfl, rfl, rfl, ?_, ?_, by decide⟩
  · convert h0.1 using 1
  · convert h2.1 using 1

/-- Claim C6. For every palette with `n` entries, `2n` within `int` range,
`output_c_palette` declares the same size `2n` in the header definition
`#define sizeof_<name> <2n>`, in the header declaration
`extern unsigned char <name>[<2n>];` and in the source definition
`unsigned char <name>[<2n>] =`; the source initializer consists of exactly
`n` entry lines, each starting with exactly two byte tokens followed by a
comment that holds no token, so exactly `2n` bytes are emitted, followed by
the closing `};`. These two texts are what the header path and the source
path hold after a successful run of `output_c_palette`. -/
theorem C6_palette_sizes (p : palette)
    (hn : p.nr_entries = (p.entries.length : Int))
    (h2 : 2 * (p.entries.length : Int) < 2 ^ 31) :
    output_c_palette_header p
      = header_open p.name ++
        [ "#define sizeof_" ++ p.name ++ " " ++ fmt_d (2 * (p.entries.length : Int)) ++ "\n",
          "extern unsigned char " ++ p.name ++ "[" ++
            fmt_d (2 * (p.entries.length : Int)) ++ "];\n" ] ++
        header_close
    ∧ output_c_palette_source p
      = "unsigned char " ++ p.name ++ "[" ++ fmt_d (2 * (p.entries.length : Int)) ++
        "] =\n\x7b\n" ++ String.join (output_c_palette_lines p) ++ "\x7d;\n"
    ∧ (output_c_palette_lines p).length = p.entries.length
    ∧ (∀ l ∈ output_c_palette_lines p, ∃ (a b : Nat) (rest : String),
        a < 256 ∧ b < 256 ∧
        l = "    0x" ++ hex2 a ++ ", 0x" ++ hex2 b ++ ", /* " ++ rest ∧
        countHexTokens rest.data = 0 ∧ countHexTokens l.data = 2)
    ∧ countHexTokens (String.join (output_c_palette_lines p)).data
        = 2 * p.entries.length
    ∧ (∀ fs : file_system, fs.can_open (strdupcat p.directory ".h") = true →
        fs.can_open (strdupcat p.directory ".c") = true →
        (output_c_palette fs p).1 = 0
        ∧ (output_c_palette fs p).2.files (strdupcat p.directory ".h")
            = some (String.join (output_c_palette_header p))
        ∧ (output_c_palette fs p).2.files (strdupcat p.directory ".c")
            = some (output_c_palette_source p)) := by
  have hsz := palette_size_eq p hn h2
  have hlen : (output_c_palette_lines p).length = p.entries.length := by
    simp [output_c_palette_lines, hn]
  have hline : ∀ l ∈ output_c_palette_lines p,
      countHexTokens l.data = 2 ∧ l.data.head? ≠ some 'x' := by
    intro l hl
    simp only [output_c_palette_lines, List.mem_map] at hl
    obtain ⟨i, _, rfl⟩ := hl
    obtain ⟨a, b, rest, ha, hb, hq, e⟩ := palette_entry_shape i (p.entries.getD i default)
    rw [e]
    exact shape_token_count a b rest ha hb hq
  refine ⟨?_, ?_, hlen, ?_, ?_, ?_⟩
  · simp [output_c_palette_header, header_open, header_close, hsz]
  · simp [output_c_palette_source, hsz]
  · intro l hl
    have hc := (hline l hl).1
    simp only [output_c_palette_lines, List.mem_map] at hl
    obtain ⟨i, _, rfl⟩ := hl
    obtain ⟨a, b, rest, ha, hb, hq, e⟩ := palette_entry_shape i (p.entries.getD i default)
    exact ⟨a, b, rest, ha, hb, e, hq.2, hc⟩
  · rw [palette_lines_token_count _ hline, hlen]
  · intro fs ho hs
    rw [output_c_palette_eq]
    exact ⟨(emit_pair_source _ _ _ _ ho hs).1, emit_pair_header _ _ _ _ ho,
      (emit_pair_source _ _ _ _ ho hs).2⟩

set_option maxRecDepth 100000 in
/-- Witness of C6: the three-entry example palette declares size 6. -/
theorem C6_palette_sizes_witness :
    palette_example.nr_entries = (palette_example.entries.length : Int) ∧
    2 * (palette_example.entries.length : Int) < 2 ^ 31 ∧
    output_c_palette_source palette_example
      = "unsigned char pal[6] =\n\x7b\n" ++
        "    0x34, 0x12, /*   0: rgb( 10,  20,  30) [exact original: rgb( 10,  20,  30)] */\n" ++
        "    0x00, 0x00, /*   1: (unused) */\n" ++
        "    0xcd, 0xab, /*   2: rgb(  1,   2,   3) */\n" ++
        "\x7d;\n" ∧
    String.join (output_c_palette_header palette_example)
      = "#ifndef pal_include_file\n#define pal_include_file\n\n" ++
        "#ifdef __cplusplus\nextern \"C\" \x7b\n#endif\n\n" ++
        "#define sizeof_pal 6\nextern unsigned char pal[6];\n" ++
        "\n#ifdef __cplusplus\n\x7d\n#endif\n\n#endif\n" ∧
    (output_c_palette fs_empty palette_example).2.files
        (strdupcat palette_example.directory ".h")
      = some ("#ifndef pal_include_file\n#define pal_include_file\n\n" ++
        "#ifdef __cplusplus\nextern \"C\" \x7b\n#endif\n\n" ++
        "#define sizeof_pal 6\nextern unsigned char pal[6];\n" ++
        "\n#ifdef __cplusplus\n\x7d\n#endif\n\n#endif\n") ∧
    (output_c_palette fs_empty palette_example).2.files
        (strdupcat palette_example.directory ".c")
      = some ("unsigned char pal[6] =\n\x7b\n" ++
        "    0x34, 0x12, /*   0: rgb( 10,  20,  30) [exact original: rgb( 10,  20,  30)] */\n" ++
        "    0x00, 0x00, /*   1: (unused) */\n" ++
        "    0xcd, 0xab, /*   2: rgb(  1,   2,   3) */\n" ++
        "\x7d;\n") :=
  ⟨rfl, by decide,
    (C6_palette_sizes palette_example rfl (by decide)).2.1.trans (by decide),
    (congrArg String.join (C6_palette_sizes palette_example rfl (by decide)).1).trans
      (by decide),
    ((C6_palette_sizes palette_example rfl (by decide)).2.2.2.2.2 fs_empty rfl rfl).2.1.trans
      (by decide),
    by decide⟩

/-- Claim C7. For every palette entry that is written with its colour (exact,
or valid and not exact) and whose target `t` satisfies `0 <= t < 65536`, the
two bytes written by `output_c_palette` on the entry's line of the source
file are `lo = t mod 256` first and `hi = t div 256` second (little-endian),
so that `lo + 256 * hi = t` and both are in 0..255. -/
theorem C7_palette_little_endian (fs : file_system) (p : palette) (i : Nat)
    (e : palette_entry)
    (hn : p.nr_entries = (p.entries.length : Int)) (he : p.entries[i]? = some e)
    (hcol : e.exact = true ∨ (e.valid = true ∧ e.exact = false))
    (ht : e.color.target < 65536)
    (ho : fs.can_open (strdupcat p.directory ".h") = true)
    (hs : fs.can_open (strdupcat p.directory ".c") = true) :
    (∃ rest : String,
      palette_file_line fs p i
        ("    0x" ++ hex2 (e.color.target % 256) ++
         ", 0x" ++ hex2 (e.color.target / 256) ++ ", " ++ rest) ∧
      (output_c_palette_lines p)[i]? = some
        ("    0x" ++ hex2 (e.color.target % 256) ++
         ", 0x" ++ hex2 (e.color.target / 256) ++ ", " ++ rest))
    ∧ e.color.target % 256 + 256 * (e.color.target / 256) = e.color.target
    ∧ e.color.target % 256 < 256 ∧ e.color.target / 256 < 256 := by
  have hhi : e.color.target / 256 % 256 = e.color.target / 256 :=
    Nat.mod_eq_of_lt (by omega)
  have hfile := palette_file_line_at fs p i e hn he ho hs
  have hat := palette_line_at p hn i e he
  refine ⟨?_, by omega, by omega, by omega⟩
  rcases hcol with hx | ⟨hv, hx⟩
  · have e1 : output_c_palette_entry i e
        = "    0x" ++ hex2 (e.color.target % 256) ++
          ", 0x" ++ hex2 (e.color.target / 256) ++ ", " ++
          ("/* " ++ fmt_3d i ++ ": rgb(" ++ fmt_3d e.color.rgb.r ++ ", " ++
            fmt_3d e.color.rgb.g ++ ", " ++ fmt_3d e.color.rgb.b ++
            ") [exact original: rgb(" ++ fmt_3d e.orig_color.rgb.r ++ ", " ++
            fmt_3d e.orig_color.rgb.g ++ ", " ++ fmt_3d e.orig_color.rgb.b ++ ")] */\n") := by
      rw [palette_entry_exact i e hx, hhi]
      apply String.ext; simp [String.data_append]
    rw [e1] at hfile hat
    exact ⟨_, hfile, hat⟩
  · have e1 : output_c_palette_entry i e
        = "    0x" ++ hex2 (e.color.target % 256) ++
          ", 0x" ++ hex2 (e.color.target / 256) ++ ", " ++
          ("/* " ++ fmt_3d i ++ ": rgb(" ++ fmt_3d e.color.rgb.r ++ ", " ++
            fmt_3d e.color.rgb.g ++ ", " ++ fmt_3d e.color.rgb.b ++ ") */\n") := by
      rw [palette_entry_plain i e hx hv, hhi]
      apply String.ext; simp [String.data_append]
    rw [e1] at hfile hat
    exact ⟨_, hfile, hat⟩

set_option maxRecDepth 100000 in
/-- Witness of C7: target 0xABCD (entry 2 of the example palette) is written
as `0xcd, 0xab,` in the source file on the empty file system. -/
theorem C7_palette_little_endian_witness :
    palette_example.nr_entries = (palette_example.entries.length : Int) ∧
    palette_example.entries[2]? = some entry_plain ∧
    (entry_plain.valid = true ∧ entry_plain.exact = false) ∧
    entry_plain.color.target = 0xABCD ∧ entry_plain.color.target < 65536 ∧
    (∃ rest : String,
      palette_file_line fs_empty palette_example 2
        ("    0x" ++ hex2 (entry_plain.color.target % 256) ++
         ", 0x" ++ hex2 (entry_plain.color.target / 256) ++ ", " ++ rest) ∧
      (output_c_palette_lines palette_example)[2]? = some
        ("    0x" ++ hex2 (entry_plain.color.target % 256) ++
         ", 0x" ++ hex2 (entry_plain.color.target / 256) ++ ", " ++ rest)) ∧
    "    0x" ++ hex2 (entry_plain.color.target % 256) ++
      ", 0x" ++ hex2 (entry_plain.color.target / 256) ++ ", " = "    0xcd, 0xab, " ∧
    (output_c_palette fs_empty palette_example).2.files
        (strdupcat palette_example.directory ".c")
      = some ("unsigned char pal[6] =\n\x7b\n" ++
        "    0x34, 0x12, /*   0: rgb( 10,  20,  30) [exact original: rgb( 10,  20,  30)] */\n" ++
        "    0x00, 0x00, /*   1: (unused) */\n" ++
        "    0xcd, 0xab, /*   2: rgb(  1,   2,   3) */\n" ++
        "\x7d;\n") :=
  ⟨rfl, rfl, ⟨rfl, rfl⟩, rfl, by decide,
    (C7_palette_little_endian fs_empty palette_example 2 entry_plain rfl rfl
      (Or.inr ⟨rfl, rfl⟩) (by decide) rfl rfl).1,
    by decide, by decide⟩

set_option maxRecDepth 100000 in
/-- Counterexample to C8 as stated: an entry with `valid = false` and
`exact = true` is not written as an unused slot; the exact branch is tested
first, and the source file written by `output_c_palette` holds the entry's
target bytes and colour on its line instead of the unused line. -/
theorem C8_counterexample :
    palette_exact_unused.nr_entries = (palette_exact_unused.entries.length : Int) ∧
    palette_exact_unused.entries[0]? = some entry_exact_unused ∧
    entry_exact_unused.valid = false ∧
    (output_c_palette fs_empty palette_exact_unused).1 = 0 ∧
    (output_c_palette fs_empty palette_exact_unused).2.files
        (strdupcat palette_exact_unused.directory ".c")
      = some ("unsigned char pal[2] =\n\x7b\n" ++
        "    0x34, 0x12, /*   0: rgb(  1,   2,   3) [exact original: rgb(  1,   2,   3)] */\n" ++
        "\x7d;\n") ∧
    (output_c_palette fs_empty palette_exact_unused).2.files
        (strdupcat palette_exact_unused.directory ".c")
      ≠ some ("unsigned char pal[2] =\n\x7b\n" ++
        "    0x00, 0x00, /*   0: (unused) */\n" ++
        "\x7d;\n") ∧
    ¬ palette_file_line fs_empty palette_exact_unused 0
        "    0x00, 0x00, /*   0: (unused) */\n" ∧
    (output_c_palette_lines palette_exact_unused)[0]? = some
      "    0x34, 0x12, /*   0: rgb(  1,   2,   3) [exact original: rgb(  1,   2,   3)] */\n" ∧
    (output_c_palette_lines palette_exact_unused)[0]? ≠ some
      "    0x00, 0x00, /*   0: (unused) */\n" := by
  have hact : (output_c_palette fs_empty palette_exact_unused).2.files
        (strdupcat palette_exact_unused.directory ".c")
      = some ("unsigned char pal[2] =\n\x7b\n" ++
        "    0x34, 0x12, /*   0: rgb(  1,   2,   3) [exact original: rgb(  1,   2,   3)] */\n" ++
        "\x7d;\n") := by decide
  refine ⟨rfl, rfl, rfl, by decide, hact, by decide, ?_, by decide, by decide⟩
  rintro ⟨before, after, hlen, _, _, hfile⟩
  have hb : before = [] := List.length_eq_zero.mp hlen
  have hsz : fmt_d (output_c_palette_size palette_exact_unused) = "2" := by decide
  have hname : palette_exact_unused.name = "pal" := rfl
  rw [hact, hb, hsz, hname] at hfile
  have h2 := congrArg String.data (Option.some.inj hfile)
  simp [String.data_append, String.join] at h2

/-- Claim C8, as amended. For every palette and every entry index `i` whose
`valid` flag and `exact` flag are both false, `output_c_palette` writes that
entry as zero bytes with the unused comment on line `i` of the initializer of
the source file, the index right-justified to 3 characters, whatever the
entry's target and colour are. -/
theorem C8_palette_unused_entry (fs : file_system) (p : palette) (i : Nat)
    (e : palette_entry)
    (hn : p.nr_entries = (p.entries.length : Int)) (he : p.entries[i]? = some e)
    (hv : e.valid = false) (hx : e.exact = false)
    (ho : fs.can_open (strdupcat p.directory ".h") = true)
    (hs : fs.can_open (strdupcat p.directory ".c") = true) :
    palette_file_line fs p i ("    0x00, 0x00, /* " ++ fmt_3d i ++ ": (unused) */\n")
    ∧ (output_c_palette_lines p)[i]? = some
      ("    0x00, 0x00, /* " ++ fmt_3d i ++ ": (unused) */\n")
    ∧ (i < 1000 → fmt_3d i = rjust3 i) := by
  have hfile := palette_file_line_at fs p i e hn he ho hs
  have hat := palette_line_at p hn i e he
  rw [palette_entry_unused i e hx hv] at hfile hat
  exact ⟨hfile, hat, fun h => fmt_3d_nat i h⟩

set_option maxRecDepth 100000 in
/-- Witness of C8 (amended): entry 1 of the example palette, an unused slot
with a non-zero target and colour, written on the empty file system. -/
theorem C8_palette_unused_entry_witness :
    palette_example.nr_entries = (palette_example.entries.length : Int) ∧
    palette_example.entries[1]? = some entry_unused ∧
    entry_unused.valid = false ∧ entry_unused.exact = false ∧
    entry_unused.color.target = 0x5678 ∧
    palette_file_line fs_empty palette_example 1 "    0x00, 0x00, /*   1: (unused) */\n" ∧
    (output_c_palette_lines palette_example)[1]? = some
      "    0x00, 0x00, /*   1: (unused) */\n" ∧
    (output_c_palette fs_empty palette_example).2.files
        (strdupcat palette_example.directory ".c")
      = some ("unsigned char pal[6] =\n\x7b\n" ++
        "    0x34, 0x12, /*   0: rgb( 10,  20,  30) [exact original: rgb( 10,  20,  30)] */\n" ++
        "    0x00, 0x00, /*   1: (unused) */\n" ++
        "    0xcd, 0xab, /*   2: rgb(  1,   2,   3) */\n" ++
        "\x7d;\n") := by
  have h := C8_palette_unused_entry fs_empty palette_example 1 entry_unused rfl rfl rfl rfl
    rfl rfl
  refine ⟨rfl, rfl, rfl, rfl, rfl, ?_, h.2.1.trans (by decide), by decide⟩
  convert h.1 using 1

/-! ## The tileset operation -/

theorem range_map_getD_eq_enum {α β : Type} (l : List α) (d : α) (f : Nat → α → β) :
    (List.range l.length).map (fun i => f i (l.getD i d))
      = l.enum.map (fun q => f q.1 q.2) := by
  apply List.ext_getElem?
  intro i
  rw [List.getElem?_map, List.getElem?_map, List.getElem?_enum]
  by_cases h : i < l.length
  · rw [List.getElem?_range h, List.getElem?_eq_getElem h]
    simp [List.getD_eq_getElem?_getD, List.getElem?_eq_getElem h]
  · rw [List.getElem?_eq_none (by simpa using h), List.getElem?_eq_none (by simpa using h)]
    rfl

theorem head_of_shifted (c : Char) (x y : List Char) : ∀ n : List Char,
    n ++ x = c :: (n ++ y) → x.head? = some c := by
  intro n
  induction n with
  | nil => intro h; simp at h; rw [h]; rfl
  | cons a n ih =>
    intro h
    simp only [List.cons_append, List.cons.injEq] at h
    obtain ⟨h1, h2⟩ := h
    subst h1
    exact ih h2

theorem tileset_header_tile_eq (ts : tileset) (i : Nat) :
    output_c_tileset_header_tile ts i
      = spec_tile_decl ts.image.name ts.compressed ts.rlet i (ts.tiles.getD i default).size := by
  unfold output_c_tileset_header_tile spec_tile_decl sprite_type
  rfl

theorem tileset_header_eq (ts : tileset) (hn : ts.nr_tiles = (ts.tiles.length : Int)) :
    output_c_tileset_header ts
      = header_open ts.image.name ++
        (ts.tiles.enum.map (fun q =>
          spec_tile_decl ts.image.name ts.compressed ts.rlet q.1 q.2.size)).flatten ++
        [ "#define " ++ ts.image.name ++ "_num_tiles " ++ fmt_d ts.tiles.length ++ "\n" ] ++
        (if ts.p_table then
          spec_table_decl ts.image.name ts.compressed ts.rlet ts.tiles.length
         else []) ++
        header_close := by
  have e : (List.range ts.nr_tiles.toNat).map (output_c_tileset_header_tile ts)
      = ts.tiles.enum.map (fun q =>
          spec_tile_decl ts.image.name ts.compressed ts.rlet q.1 q.2.size) := by
    rw [hn, Int.toNat_ofNat, ← range_map_getD_eq_enum ts.tiles default
      (fun i t => spec_tile_decl ts.image.name ts.compressed ts.rlet i t.size)]
    exact List.map_congr_left (fun i _ => tileset_header_tile_eq ts i)
  unfold output_c_tileset_header
  rw [e, hn]
  unfold header_open header_close spec_table_decl sprite_type
  cases ts.p_table <;> cases ts.compressed <;> rfl

theorem extern_tile_ne_table (name a rest : String) :
    "extern unsigned char " ++ (name ++ ("_tile_" ++ a))
      ≠ "extern unsigned char *" ++ (name ++ ("_tiles_" ++ rest)) := by
  intro h
  have h2 := congrArg String.data h
  simp only [String.data_append, List.append_assoc] at h2
  have h3 : name.data ++ (("_tile_" : String).data ++ a.data)
      = '*' :: (name.data ++ (("_tiles_" : String).data ++ rest.data)) := by
    simpa using h2
  have h4 := head_of_shifted _ _ _ _ h3
  simp at h4

theorem tileset_fixed_lines_ne (name : String) (n : Int) :
    ∀ l ∈ header_open name ++ [ "#define " ++ name ++ "_num_tiles " ++ fmt_d n ++ "\n" ] ++
        header_close,
      ∀ rest : String,
        l ≠ "extern unsigned char *" ++ name ++ "_tiles_" ++ rest ∧
        l ≠ "#define " ++ name ++ "_tiles " ++ rest := by
  simp only [header_open, header_close, List.cons_append, List.nil_append,
    List.forall_mem_cons]
  repeat' apply And.intro
  all_goals
    first
    | (intro l hl; exact absurd hl (List.not_mem_nil l))
    | (intro rest
       constructor <;>
       · intro h
         have h2 := congrArg String.data h
         simp [String.data_append] at h2)

theorem tile_decl_ne (name : String) (c r : Bool) (i : Nat) (size : Int) :
    ∀ l ∈ spec_tile_decl name c r i size, ∀ rest : String,
      l ≠ "extern unsigned char *" ++ name ++ "_tiles_" ++ rest ∧
      l ≠ "#define " ++ name ++ "_tiles " ++ rest := by
  intro l hl rest
  have hd : ∀ a : String, "#define " ++ name ++ "_tile_" ++ a
      ≠ "#define " ++ name ++ "_tiles " ++ rest := by
    intro a h
    have h2 := congrArg String.data h
    simp [String.data_append] at h2
  have hx : ∀ a : String, "extern unsigned char " ++ name ++ "_tile_" ++ a
      ≠ "#define " ++ name ++ "_tiles " ++ rest := by
    intro a h
    have h2 := congrArg String.data h
    simp [String.data_append] at h2
  have hy : ∀ a : String, "#define " ++ name ++ "_tile_" ++ a
      ≠ "extern unsigned char *" ++ name ++ "_tiles_" ++ rest := by
    intro a h
    have h2 := congrArg String.data h
    simp [String.data_append] at h2
  have hz : ∀ a : String, "extern unsigned char " ++ name ++ "_tile_" ++ a
      ≠ "extern unsigned char *" ++ name ++ "_tiles_" ++ rest := by
    intro a h
    simp only [String.append_assoc] at h
    exact extern_tile_ne_table _ _ _ h
  unfold spec_tile_decl at hl
  cases c
  · simp only [Bool.false_eq_true, if_false, List.mem_cons, List.not_mem_nil, or_false] at hl
    rcases hl with h | h
    · subst h
      simp only [String.append_assoc]
      have a1 := hz (fmt_d i ++ ("_data[" ++ (fmt_d size ++ "];\n")))
      have a2 := hx (fmt_d i ++ ("_data[" ++ (fmt_d size ++ "];\n")))
      simp only [String.append_assoc] at a1 a2
      exact ⟨a1, a2⟩
    · subst h
      simp only [String.append_assoc]
      have a1 := hy (fmt_d i ++ (" ((" ++ (sprite_type r ++ ("*)" ++ (name ++ ("_tile_" ++
        (fmt_d i ++ "_data)\n")))))))
      have a2 := hd (fmt_d i ++ (" ((" ++ (sprite_type r ++ ("*)" ++ (name ++ ("_tile_" ++
        (fmt_d i ++ "_data)\n")))))))
      simp only [String.append_assoc] at a1 a2
      exact ⟨a1, a2⟩
  · simp only [if_true, List.mem_cons, List.not_mem_nil, or_false] at hl
    subst hl
    simp only [String.append_assoc]
    have a1 := hz (fmt_d i ++ ("_compressed[" ++ (fmt_d size ++ "];\n")))
    have a2 := hx (fmt_d i ++ ("_compressed[" ++ (fmt_d size ++ "];\n")))
    simp only [String.append_assoc] at a1 a2
    exact ⟨a1, a2⟩

/-- Claim C9. For every tileset with `n` tiles the header written by
`output_c_tileset` consists of the opening boilerplate; then, for each tile
index `i = 0..n-1` in increasing order, the declaration
`extern unsigned char <name>_tile_<i>_compressed[<size_i>];` if compressed,
or else `extern unsigned char <name>_tile_<i>_data[<size_i>];` followed by
`#define <name>_tile_<i> ((T*)<name>_tile_<i>_data)`; then
`#define <name>_num_tiles <n>`; then, iff `p_table` is set, the declaration
of `<name>_tiles_compressed[<n>]` (compressed) or of `<name>_tiles_data[<n>]`
followed by `#define <name>_tiles ((T**)<name>_tiles_data)` (uncompressed);
then the closing boilerplate. `<name>` is the embedded image's name and `T`
the sprite structure selected by `rlet`. With `p_table` unset no line
declares `<name>_tiles_...` or defines `<name>_tiles`. -/
theorem C9_tileset_header (fs : file_system) (ts : tileset)
    (hn : ts.nr_tiles = (ts.tiles.length : Int))
    (ho : fs.can_open (strdupcat ts.directory ".h") = true) :
    output_c_tileset_header ts
      = header_open ts.image.name ++
        (ts.tiles.enum.map (fun q =>
          spec_tile_decl ts.image.name ts.compressed ts.rlet q.1 q.2.size)).flatten ++
        [ "#define " ++ ts.image.name ++ "_num_tiles " ++ fmt_d ts.tiles.length ++ "\n" ] ++
        (if ts.p_table then
          spec_table_decl ts.image.name ts.compressed ts.rlet ts.tiles.length
         else []) ++
        header_close
    ∧ (output_c_tileset fs ts).2.files (strdupcat ts.directory ".h")
        = some (String.join (output_c_tileset_header ts))
    ∧ (ts.p_table = false → ∀ l ∈ output_c_tileset_header ts, ∀ rest : String,
        l ≠ "extern unsigned char *" ++ ts.image.name ++ "_tiles_" ++ rest ∧
        l ≠ "#define " ++ ts.image.name ++ "_tiles " ++ rest) := by
  refine ⟨tileset_header_eq ts hn, ?_, ?_⟩
  · rw [output_c_tileset_eq]; exact emit_pair_header _ _ _ _ ho
  · intro hp l hl rest
    rw [tileset_header_eq ts hn, hp] at hl
    simp only [Bool.false_eq_true, if_false, List.append_nil] at hl
    have hfix := tileset_fixed_lines_ne ts.image.name ts.tiles.length
    rcases List.mem_append.mp hl with h | h
    · rcases List.mem_append.mp h with h | h
      · rcases List.mem_append.mp h with h | h
        · exact hfix l (List.mem_append_left _ (List.mem_append_left _ h)) rest
        · obtain ⟨m, hm, hlm⟩ := List.mem_flatten.mp h
          obtain ⟨q, _, rfl⟩ := List.mem_map.mp hm
          exact tile_decl_ne _ _ _ _ _ l hlm rest
      · exact hfix l (List.mem_append_left _ (List.mem_append_right _ h)) rest
    · exact hfix l (List.mem_append_right _ h) rest

set_option maxRecDepth 100000 in
/-- Witness of C9: the example tileset (2 tiles, `p_table = true`,
`compressed = false`) on the empty file system. -/
theorem C9_tileset_header_witness :
    tileset_example.nr_tiles = (tileset_example.tiles.length : Int) ∧
    fs_empty.can_open (strdupcat tileset_example.directory ".h") = true ∧
    (output_c_tileset fs_empty tileset_example).2.files
        (strdupcat tileset_example.directory ".h")
      = some ("#ifndef name_include_file\n#define name_include_file\n\n" ++
          "#ifdef __cplusplus\nextern \"C\" \x7b\n#endif\n\n" ++
          "extern unsigned char name_tile_0_data[2];\n" ++
          "#define name_tile_0 ((gfx_sprite_t*)name_tile_0_data)\n" ++
          "extern unsigned char name_tile_1_data[3];\n" ++
          "#define name_tile_1 ((gfx_sprite_t*)name_tile_1_data)\n" ++
          "#define name_num_tiles 2\n" ++
          "extern unsigned char *name_tiles_data[2];\n" ++
          "#define name_tiles ((gfx_sprite_t**)name_tiles_data)\n" ++
          "\n#ifdef __cplusplus\n\x7d\n#endif\n\n#endif\n") :=
  ⟨rfl, rfl, (C9_tileset_header fs_empty tileset_example rfl rfl).2.1.trans (by decide)⟩

theorem tileset_source_tile_eq (ts : tileset) (i : Nat) :
    output_c_tileset_source_tile ts i
      = spec_tile_def ts.image.name ts.compressed i (ts.tiles.getD i default) := by
  unfold output_c_tileset_source_tile spec_tile_def
  apply String.ext
  cases ts.compressed <;> simp [String.data_append]

theorem tileset_source_ptr_eq (ts : tileset) (i : Nat) :
    output_c_tileset_source_ptr ts i
      = "    " ++ ts.image.name ++ "_tile_" ++ fmt_d i ++
        (if ts.compressed then "_compressed" else "_data") ++ ",\n" := by
  unfold output_c_tileset_source_ptr
  apply String.ext
  cases ts.compressed <;> simp [String.data_append]

theorem tileset_source_eq (ts : tileset) (hn : ts.nr_tiles = (ts.tiles.length : Int)) :
    output_c_tileset_source ts
      = String.join (ts.tiles.enum.map (fun q =>
          spec_tile_def ts.image.name ts.compressed q.1 q.2)) ++
        (if ts.p_table then spec_table_def ts.image.name ts.compressed ts.tiles.length
         else "") := by
  have e1 : (List.range ts.nr_tiles.toNat).map (output_c_tileset_source_tile ts)
      = ts.tiles.enum.map (fun q => spec_tile_def ts.image.name ts.compressed q.1 q.2) := by
    rw [hn, Int.toNat_ofNat, ← range_map_getD_eq_enum ts.tiles default
      (fun i t => spec_tile_def ts.image.name ts.compressed i t)]
    exact List.map_congr_left (fun i _ => tileset_source_tile_eq ts i)
  have e2 : (List.range ts.nr_tiles.toNat).map (output_c_tileset_source_ptr ts)
      = (List.range ts.tiles.length).map (fun (i : Nat) =>
          "    " ++ ts.image.name ++ "_tile_" ++ fmt_d (i : Int) ++
            (if ts.compressed then "_compressed" else "_data") ++ ",\n") := by
    rw [hn, Int.toNat_ofNat]
    exact List.map_congr_left (fun i _ => tileset_source_ptr_eq ts i)
  unfold output_c_tileset_source
  rw [e1, e2, hn]
  congr 1
  unfold spec_table_def
  cases ts.p_table
  · rfl
  · apply String.ext
    cases ts.compressed <;> simp [String.data_append]

/-- Claim C10. For every tileset with `n` tiles the source written by
`output_c_tileset` is the concatenation, for `i = 0..n-1` in tile index
order, of `unsigned char <name>_tile_<i>_compressed[<size_i>] =` (or
`..._data[<size_i>] =` when not compressed), a newline and the opening brace,
followed by the shared formatter's output over tile `i`; and, iff `p_table`
is set, it ends with the definition of `<name>_tiles_compressed[<n>]` (or
`<name>_tiles_data[<n>]`) holding exactly `n` lines
`    <name>_tile_<i>_compressed,` (or `_data,`) for `i = 0..n-1` in order,
every one of them ending in a comma, the last included, followed by `};` and
a newline. With `p_table` unset nothing follows the last tile array. -/
theorem C10_tileset_source (fs : file_system) (ts : tileset)
    (hn : ts.nr_tiles = (ts.tiles.length : Int))
    (ho : fs.can_open (strdupcat ts.directory ".h") = true)
    (hs : fs.can_open (strdupcat ts.directory ".c") = true) :
    (output_c_tileset fs ts).2.files (strdupcat ts.directory ".c")
      = some (String.join (ts.tiles.enum.map (fun q =>
            "unsigned char " ++ ts.image.name ++ "_tile_" ++ fmt_d q.1 ++
              (if ts.compressed then "_compressed" else "_data") ++
              "[" ++ fmt_d q.2.size ++ "] =\n\x7b" ++
              output_c q.2.data (size_t_of_int q.2.size))) ++
          (if ts.p_table then
            "unsigned char *" ++ ts.image.name ++
              (if ts.compressed then "_tiles_compressed" else "_tiles_data") ++
              "[" ++ fmt_d ts.tiles.length ++ "] =\n\x7b\n" ++
            String.join ((List.range ts.tiles.length).map (fun (i : Nat) =>
              "    " ++ ts.image.name ++ "_tile_" ++ fmt_d (i : Int) ++
                (if ts.compressed then "_compressed" else "_data") ++ ",\n")) ++
            "\x7d;\n"
           else ""))
    ∧ (∀ t ∈ ts.tiles, t.size = (t.data.length : Int) → t.size < 2 ^ 31 →
        output_c t.data (size_t_of_int t.size) = output_c t.data t.data.length) := by
  refine ⟨?_, ?_⟩
  · rw [output_c_tileset_eq, (emit_pair_source _ _ _ _ ho hs).2, tileset_source_eq ts hn]
    rfl
  · intro t _ h1 h2
    rw [h1, size_t_of_int_length _ (h1 ▸ h2)]

set_option maxRecDepth 100000 in
/-- Witness of C10: the example tileset (2 tiles, `p_table = true`,
`compressed = false`) on the empty file system. -/
theorem C10_tileset_source_witness :
    tileset_example.nr_tiles = (tileset_example.tiles.length : Int) ∧
    fs_empty.can_open (strdupcat tileset_example.directory ".h") = true ∧
    fs_empty.can_open (strdupcat tileset_example.directory ".c") = true ∧
    (output_c_tileset fs_empty tileset_example).2.files
        (strdupcat tileset_example.directory ".c")
      = some ("unsigned char name_tile_0_data[2] =\n\x7b\n    0x01,0x02\n\x7d;\n" ++
          "unsigned char name_tile_1_data[3] =\n\x7b\n    0x03,0x04,0xff\n\x7d;\n" ++
          "unsigned char *name_tiles_data[2] =\n\x7b\n" ++
          "    name_tile_0_data,\n" ++
          "    name_tile_1_data,\n" ++
          "\x7d;\n") :=
  ⟨rfl, rfl, rfl,
    (C10_tileset_source fs_empty tileset_example rfl rfl rfl).1.trans (by decide)⟩

/-! ## The include-file operation -/

theorem range_map_getD {α β : Type} (l : List α) (d : α) (f : α → β) :
    (List.range l.length).map (fun i => f (l.getD i d)) = l.map f := by
  apply List.ext_getElem?
  intro i
  rw [List.getElem?_map, List.getElem?_map]
  by_cases h : i < l.length
  · rw [List.getElem?_range h, List.getElem?_eq_getElem h]
    simp [List.getD_eq_getElem?_getD, List.getElem?_eq_getElem h]
  · rw [List.getElem?_eq_none (by simpa using h), List.getElem?_eq_none (by simpa using h)]
    rfl

theorem include_convert_eq (c : convert)
    (hi : c.nr_images = (c.images.length : Int))
    (ht : ∀ g, c.tileset_group = some g → g.nr_tilesets = (g.tilesets.length : Int)) :
    [ "#define " ++ c.name ++ "_palette_offset " ++ fmt_d c.palette_offset ++ "\n" ] ++
      (List.range c.nr_images.toNat).map (fun j =>
        "#include \"" ++ (c.images.getD j default).name ++ ".h\"\n") ++
      (match c.tileset_group with
       | none => []
       | some tileset_group =>
         (List.range tileset_group.nr_tilesets.toNat).map (fun k =>
           "#include \"" ++ (tileset_group.tilesets.getD k default).image.name ++ ".h\"\n"))
      = spec_convert_lines c := by
  unfold spec_convert_lines
  rw [hi, Int.toNat_ofNat,
    range_map_getD c.images default (fun im => "#include \"" ++ im.name ++ ".h\"\n")]
  cases hg : c.tileset_group with
  | none => rfl
  | some g =>
    simp only
    rw [ht g hg, Int.toNat_ofNat,
      range_map_getD g.tilesets default (fun t => "#include \"" ++ t.image.name ++ ".h\"\n")]
    rfl

theorem include_file_lines_eq (o : output)
    (hp : o.nr_palettes = (o.palettes.length : Int))
    (hc : o.nr_converts = (o.converts.length : Int))
    (hi : ∀ c ∈ o.converts, c.nr_images = (c.images.length : Int))
    (ht : ∀ c ∈ o.converts, ∀ g, c.tileset_group = some g →
      g.nr_tilesets = (g.tilesets.length : Int)) :
    output_c_include_file_lines o
      = header_open (output_c_include_name o.include_file) ++
        o.palettes.map (fun p => include_line p.name) ++
        (o.converts.map spec_convert_lines).flatten ++
        header_close := by
  have e1 : (List.range o.nr_palettes.toNat).map (fun i =>
      "#include \"" ++ (o.palettes.getD i default).name ++ ".h\"\n")
      = o.palettes.map (fun p => include_line p.name) := by
    rw [hp, Int.toNat_ofNat]
    exact range_map_getD o.palettes default (fun p => include_line p.name)
  have e2 : (List.range o.nr_converts.toNat).map (output_c_include_convert o)
      = o.converts.map spec_convert_lines := by
    rw [hc, Int.toNat_ofNat]
    have e3 := range_map_getD o.converts default (fun c : convert =>
        [ "#define " ++ c.name ++ "_palette_offset " ++ fmt_d c.palette_offset ++ "\n" ] ++
        (List.range c.nr_images.toNat).map (fun j =>
          "#include \"" ++ (c.images.getD j default).name ++ ".h\"\n") ++
        (match c.tileset_group with
         | none => []
         | some tileset_group =>
           (List.range tileset_group.nr_tilesets.toNat).map (fun k =>
             "#include \"" ++ (tileset_group.tilesets.getD k default).image.name ++
               ".h\"\n")))
    exact e3.trans (List.map_congr_left (fun c hcm => include_convert_eq c (hi c hcm) (ht c hcm)))
  unfold output_c_include_file_lines
  rw [e1, e2]
  rfl

theorem include_file_written (fs : file_system) (o : output)
    (ho : fs.can_open (strdupcat o.directory o.include_file) = true) :
    (output_c_include_file fs o).1 = 0 ∧
    (output_c_include_file fs o).2.files (strdupcat o.directory o.include_file)
      = some (String.join (output_c_include_file_lines o)) := by
  unfold output_c_include_file fopen_wt fwrite
  simp [ho]

/-- Claim C11. For every output bundle the file written by
`output_c_include_file` is, between the opening and closing boilerplate,
exactly: one line `#include "<palette.name>.h"` per palette in order; then
for each convert in order the line
`#define <convert.name>_palette_offset <palette_offset>`, then one
`#include "<image.name>.h"` per image of that convert in order, then, iff the
convert has a tileset group, one `#include "<tileset.image.name>.h"` per
tileset of the group in order; and nothing else. -/
theorem C11_include_file_body (fs : file_system) (o : output)
    (hp : o.nr_palettes = (o.palettes.length : Int))
    (hc : o.nr_converts = (o.converts.length : Int))
    (hi : ∀ c ∈ o.converts, c.nr_images = (c.images.length : Int))
    (ht : ∀ c ∈ o.converts, ∀ g, c.tileset_group = some g →
      g.nr_tilesets = (g.tilesets.length : Int))
    (ho : fs.can_open (strdupcat o.directory o.include_file) = true) :
    (output_c_include_file fs o).2.files (strdupcat o.directory o.include_file)
      = some (String.join
          (header_open (output_c_include_name o.include_file) ++
           o.palettes.map (fun p => "#include \"" ++ p.name ++ ".h\"\n") ++
           (o.converts.map (fun c =>
              [ "#define " ++ c.name ++ "_palette_offset " ++ fmt_d c.palette_offset ++
                  "\n" ] ++
              c.images.map (fun im => "#include \"" ++ im.name ++ ".h\"\n") ++
              (match c.tileset_group with
               | none => []
               | some g =>
                 g.tilesets.map (fun t => "#include \"" ++ t.image.name ++ ".h\"\n")))).flatten ++
           header_close)) := by
  rw [(include_file_written fs o ho).2, include_file_lines_eq o hp hc hi ht]
  rfl

set_option maxRecDepth 100000 in
/-- Witness of C11: the example bundle (palette `pal`, convert `cv` with
image `img`, no tileset group) on the empty file system. -/
theorem C11_include_file_body_witness :
    output_example.nr_palettes = (output_example.palettes.length : Int) ∧
    output_example.nr_converts = (output_example.converts.length : Int) ∧
    (output_c_include_file fs_empty output_example).2.files
        (strdupcat output_example.directory output_example.include_file)
      = some ("#ifndef gfx_include_file\n#define gfx_include_file\n\n" ++
          "#ifdef __cplusplus\nextern \"C\" \x7b\n#endif\n\n" ++
          "#include \"pal.h\"\n" ++
          "#define cv_palette_offset 16\n" ++
          "#include \"img.h\"\n" ++
          "\n#ifdef __cplusplus\n\x7d\n#endif\n\n#endif\n") :=
  ⟨rfl, rfl,
    (C11_include_file_body fs_empty output_example rfl rfl (by decide) (by decide) rfl).trans
      (by decide)⟩

theorem strchr_none (c : Char) : ∀ l : List Char, strchr l c = none → c ∉ l := by
  intro l
  induction l with
  | nil => intro _; simp
  | cons x xs ih =>
    intro h
    unfold strchr at h
    by_cases hx : x = c
    · simp [hx] at h
    · simp only [hx, if_false, Option.map_eq_none'] at h
      simp only [List.mem_cons, not_or]
      exact ⟨fun e => hx e.symm, ih h⟩

theorem strchr_some (c : Char) : ∀ (l : List Char) (k : Nat), strchr l c = some k →
    l = l.take k ++ c :: l.drop (k + 1) ∧ c ∉ l.take k := by
  intro l
  induction l with
  | nil => intro k h; simp [strchr] at h
  | cons x xs ih =>
    intro k h
    unfold strchr at h
    by_cases hx : x = c
    · simp only [hx, if_true, Option.some.injEq] at h
      subst h
      simp [hx]
    · simp only [hx, if_false, Option.map_eq_some'] at h
      obtain ⟨j, hj, rfl⟩ := h
      obtain ⟨h1, h2⟩ := ih j hj
      refine ⟨?_, ?_⟩
      · simp only [List.take_succ_cons, List.drop_succ_cons, List.cons_append]
        rw [← h1]
      · simp only [List.take_succ_cons, List.mem_cons, not_or]
        exact ⟨fun e => hx e.symm, h2⟩

theorem include_name_cases (s : String) :
    ('.' ∉ s.data ∧ output_c_include_name s = s) ∨
    (∃ rest : List Char, s.data = (output_c_include_name s).data ++ '.' :: rest ∧
      '.' ∉ (output_c_include_name s).data) := by
  unfold output_c_include_name
  cases h : strchr s.data '.' with
  | none => exact Or.inl ⟨strchr_none _ _ h, rfl⟩
  | some k =>
    obtain ⟨h1, h2⟩ := strchr_some _ _ _ h
    exact Or.inr ⟨s.data.drop (k + 1), h1, h2⟩

/-- Claim C12. For every include-file name `s` the include-guard identifier
`g` used by `output_c_include_file` in `#ifndef <g>_include_file` and
`#define <g>_include_file` is `s` with everything from the first `.` onward
stripped: `g` never contains a `.`; `g = s` when `s` has no `.`; otherwise
`s = g ++ "." ++ rest`; and `g` is the longest prefix of `s` that contains no
`.` (every prefix of `s` without `.` is a prefix of `g`). The file written by
`output_c_include_file` begins with the two guard lines on `g`. -/
theorem C12_include_guard (s : String) :
    '.' ∉ (output_c_include_name s).data
    ∧ (∃ rest : String, s = output_c_include_name s ++ rest)
    ∧ ('.' ∉ s.data → output_c_include_name s = s)
    ∧ ('.' ∈ s.data → ∃ rest : String, s = output_c_include_name s ++ "." ++ rest)
    ∧ (∀ p r : String, s = p ++ r → '.' ∉ p.data →
        p.length ≤ (output_c_include_name s).length ∧
        ∃ r2 : String, output_c_include_name s = p ++ r2)
    ∧ (∀ o : output, o.include_file = s →
        ∃ rest : List String, output_c_include_file_lines o
          = ("#ifndef " ++ output_c_include_name s ++ "_include_file\n") ::
            ("#define " ++ output_c_include_name s ++ "_include_file\n") :: rest)
    ∧ (∀ (fs : file_system) (o : output), o.include_file = s →
        fs.can_open (strdupcat o.directory o.include_file) = true →
        ∃ rest : String,
          (output_c_include_file fs o).2.files (strdupcat o.directory o.include_file)
            = some ("#ifndef " ++ output_c_include_name s ++ "_include_file\n" ++
                "#define " ++ output_c_include_name s ++ "_include_file\n" ++ rest)) := by
  have hfile : ∀ (fs : file_system) (o : output), o.include_file = s →
      fs.can_open (strdupcat o.directory o.include_file) = true →
      ∃ rest : String,
        (output_c_include_file fs o).2.files (strdupcat o.directory o.include_file)
          = some ("#ifndef " ++ output_c_include_name s ++ "_include_file\n" ++
              "#define " ++ output_c_include_name s ++ "_include_file\n" ++ rest) := by
    intro fs o hos ho
    subst hos
    have hl : ∃ rest : List String, output_c_include_file_lines o
        = ("#ifndef " ++ output_c_include_name o.include_file ++ "_include_file\n") ::
          ("#define " ++ output_c_include_name o.include_file ++ "_include_file\n") :: rest :=
      ⟨_, rfl⟩
    obtain ⟨rest, hr⟩ := hl
    refine ⟨String.join rest, ?_⟩
    rw [(include_file_written fs o ho).2, hr, join_cons, join_cons]
    simp only [String.append_assoc]
  rcases include_name_cases s with ⟨hno, hg⟩ | ⟨rest, hs, hg⟩
  · refine ⟨by rw [hg]; exact hno, ⟨"", by rw [hg]; simp⟩, fun _ => hg,
      fun h => absurd h hno, ?_, ?_, hfile⟩
    · intro p r hpr _
      rw [hg]
      refine ⟨?_, r, hpr⟩
      have hd : s.data = p.data ++ r.data := by rw [hpr, String.data_append]
      have hl := congrArg List.length hd
      simp only [List.length_append] at hl
      show p.data.length ≤ s.data.length
      omega
    · intro o ho
      subst ho
      exact ⟨_, rfl⟩
  · have hdot : '.' ∈ s.data := by rw [hs]; simp
    refine ⟨hg, ⟨String.mk ('.' :: rest), ?_⟩, fun h => absurd hdot h,
      fun _ => ⟨String.mk rest, ?_⟩, ?_, ?_, hfile⟩
    · apply String.ext; simp [String.data_append, hs]
    · apply String.ext; simp [String.data_append, hs]
    · intro p r hpr hp
      have e : p.data ++ r.data = (output_c_include_name s).data ++ '.' :: rest := by
        rw [← hs, hpr, String.data_append]
      rcases List.append_eq_append_iff.mp e with ⟨a, ha, _⟩ | ⟨a, ha, hb⟩
      · refine ⟨?_, String.mk a, ?_⟩
        · have hl := congrArg List.length ha
          simp only [List.length_append] at hl
          show p.data.length ≤ (output_c_include_name s).data.length
          omega
        · apply String.ext; simp [String.data_append, ha]
      · cases a with
        | nil =>
          simp only [List.append_nil] at ha
          refine ⟨?_, "", ?_⟩
          · have hl := congrArg List.length ha
            show p.data.length ≤ (output_c_include_name s).data.length
            omega
          · apply String.ext; simp [ha]
        | cons x xs =>
          simp only [List.cons_append, List.cons.injEq] at hb
          exact absurd (by rw [ha, hb.1]; simp) hp
    · intro o ho
      subst ho
      exact ⟨_, rfl⟩

set_option maxRecDepth 100000 in
/-- Witness of C12: `gfx.h` gives `gfx`, `a.b.h` gives `a`, `gfx` gives
`gfx`, and the include file `gfx.h` written on the empty file system is
guarded by `gfx_include_file`. -/
theorem C12_include_guard_witness :
    output_c_include_name "gfx.h" = "gfx" ∧
    output_c_include_name "a.b.h" = "a" ∧
    output_c_include_name "gfx" = "gfx" ∧
    (∃ rest : String, "a.b.h" = output_c_include_name "a.b.h" ++ "." ++ rest) ∧
    output_c_include_name "gfx" = "gfx" ∧
    (∃ rest : String,
      (output_c_include_file fs_empty output_example).2.files
          (strdupcat output_example.directory output_example.include_file)
        = some ("#ifndef " ++ output_c_include_name "gfx.h" ++ "_include_file\n" ++
            "#define " ++ output_c_include_name "gfx.h" ++ "_include_file\n" ++ rest)) ∧
    (output_c_include_file fs_empty output_example).2.files
        (strdupcat output_example.directory output_example.include_file)
      = some ("#ifndef gfx_include_file\n#define gfx_include_file\n\n" ++
          "#ifdef __cplusplus\nextern \"C\" \x7b\n#endif\n\n" ++
          "#include \"pal.h\"\n" ++
          "#define cv_palette_offset 16\n" ++
          "#include \"img.h\"\n" ++
          "\n#ifdef __cplusplus\n\x7d\n#endif\n\n#endif\n") :=
  ⟨by decide, by decide, by decide, (C12_include_guard "a.b.h").2.2.2.1 (by decide),
    (C12_include_guard "gfx").2.2.1 (by decide),
    (C12_include_guard "gfx.h").2.2.2.2.2.2 fs_empty output_example rfl rfl,
    by decide⟩

/-! ## Boilerplate of the four headers -/

theorem join_header_open (id : String) :
    String.join (header_open id) = header_open_text id := by
  apply String.ext
  simp [header_open, header_open_text, String.data_join, String.data_append]

theorem join_header_close : String.join header_close = header_close_text := by
  decide

theorem framed_text (id : String) (mid : List String) :
    String.join (header_open id ++ mid ++ header_close)
      = header_open_text id ++ String.join mid ++ header_close_text := by
  rw [join_append, join_append, join_header_open, join_header_close]

theorem image_header_framed (img : image) :
    ∃ mid, output_c_image_header img = header_open img.name ++ mid ++ header_close := by
  refine ⟨[ "#define " ++ img.name ++ "_width " ++ fmt_d img.width ++ "\n",
      "#define " ++ img.name ++ "_height " ++ fmt_d img.height ++ "\n",
      "#define " ++ img.name ++ "_size " ++ fmt_d img.orig_size ++ "\n" ] ++
    (if img.compressed then
      [ "#define " ++ img.name ++ "_compressed_size " ++ fmt_d img.size ++ "\n",
        "extern unsigned char " ++ img.name ++ "_compressed[" ++ fmt_d img.size ++ "];\n" ]
     else
      [ "#define " ++ img.name ++ " ((" ++
          (if img.rlet then "gfx_rletsprite_t" else "gfx_sprite_t") ++ "*)" ++
          img.name ++ "_data)\n",
        "extern unsigned char " ++ img.name ++ "_data[" ++ fmt_d img.size ++ "];\n" ]), ?_⟩
  simp [output_c_image_header, header_open, header_close]

theorem tileset_header_framed (ts : tileset) :
    ∃ mid, output_c_tileset_header ts
      = header_open ts.image.name ++ mid ++ header_close := by
  refine ⟨((List.range ts.nr_tiles.toNat).map (output_c_tileset_header_tile ts)).flatten ++
    [ "#define " ++ ts.image.name ++ "_num_tiles " ++ fmt_d ts.nr_tiles ++ "\n" ] ++
    (if ts.p_table then
      (if ts.compressed then
        [ "extern unsigned char *" ++ ts.image.name ++ "_tiles_compressed[" ++
            fmt_d ts.nr_tiles ++ "];\n" ]
       else
        [ "extern unsigned char *" ++ ts.image.name ++ "_tiles_data[" ++
            fmt_d ts.nr_tiles ++ "];\n",
          "#define " ++ ts.image.name ++ "_tiles ((" ++
            (if ts.rlet then "gfx_rletsprite_t" else "gfx_sprite_t") ++ "**)" ++
            ts.image.name ++ "_tiles_data)\n" ])
     else []), ?_⟩
  simp [output_c_tileset_header, header_open, header_close]

theorem palette_header_framed (p : palette) :
    ∃ mid, output_c_palette_header p = header_open p.name ++ mid ++ header_close := by
  unfold output_c_palette_header header_open header_close
  exact ⟨[_, _], rfl⟩

theorem include_file_framed (o : output) :
    ∃ mid, output_c_include_file_lines o
      = header_open (output_c_include_name o.include_file) ++ mid ++ header_close := by
  refine ⟨(List.range o.nr_palettes.toNat).map (fun i =>
      "#include \"" ++ (o.palettes.getD i default).name ++ ".h\"\n") ++
    ((List.range o.nr_converts.toNat).map (output_c_include_convert o)).flatten, ?_⟩
  simp [output_c_include_file_lines, header_open, header_close]

/-- Claim C13. Every header written by one of the four operations (image
header, tileset header, palette header, aggregate include file) begins with
exactly `#ifndef <id>_include_file`, `#define <id>_include_file`, an empty
line, `#ifdef __cplusplus`, `extern "C" {`, `#endif` and an empty line, and
ends with exactly an empty line, `#ifdef __cplusplus`, `}`, `#endif`, an
empty line and `#endif`, where `<id>` is the image's name, the name of the
tileset's embedded image, the palette's name, or the stripped include-file
name respectively. -/
theorem C13_header_boilerplate (fs : file_system) (img : image) (ts : tileset)
    (p : palette) (o : output) :
    (fs.can_open (strdupcat img.directory ".h") = true →
      ∃ body : String, (output_c_image fs img).2.files (strdupcat img.directory ".h")
        = some (("#ifndef " ++ img.name ++ "_include_file\n#define " ++ img.name ++
            "_include_file\n\n#ifdef __cplusplus\nextern \"C\" \x7b\n#endif\n\n") ++ body ++
            "\n#ifdef __cplusplus\n\x7d\n#endif\n\n#endif\n"))
    ∧ (fs.can_open (strdupcat ts.directory ".h") = true →
      ∃ body : String, (output_c_tileset fs ts).2.files (strdupcat ts.directory ".h")
        = some (("#ifndef " ++ ts.image.name ++ "_include_file\n#define " ++ ts.image.name ++
            "_include_file\n\n#ifdef __cplusplus\nextern \"C\" \x7b\n#endif\n\n") ++ body ++
            "\n#ifdef __cplusplus\n\x7d\n#endif\n\n#endif\n"))
    ∧ (fs.can_open (strdupcat p.directory ".h") = true →
      ∃ body : String, (output_c_palette fs p).2.files (strdupcat p.directory ".h")
        = some (("#ifndef " ++ p.name ++ "_include_file\n#define " ++ p.name ++
            "_include_file\n\n#ifdef __cplusplus\nextern \"C\" \x7b\n#endif\n\n") ++ body ++
            "\n#ifdef __cplusplus\n\x7d\n#endif\n\n#endif\n"))
    ∧ (fs.can_open (strdupcat o.directory o.include_file) = true →
      ∃ body : String,
        (output_c_include_file fs o).2.files (strdupcat o.directory o.include_file)
        = some (("#ifndef " ++ output_c_include_name o.include_file ++
            "_include_file\n#define " ++ output_c_include_name o.include_file ++
            "_include_file\n\n#ifdef __cplusplus\nextern \"C\" \x7b\n#endif\n\n") ++ body ++
            "\n#ifdef __cplusplus\n\x7d\n#endif\n\n#endif\n")) := by
  have hopen : ∀ id : String, ("#ifndef " ++ id ++ "_include_file\n#define " ++ id ++
      "_include_file\n\n#ifdef __cplusplus\nextern \"C\" \x7b\n#endif\n\n")
      = header_open_text id := by
    intro id
    apply String.ext
    simp [header_open_text, String.data_append]
  have hclose : ("\n#ifdef __cplusplus\n\x7d\n#endif\n\n#endif\n" : String)
      = header_close_text := rfl
  simp only [hopen, hclose]
  refine ⟨?_, ?_, ?_, ?_⟩
  · intro ho
    obtain ⟨mid, hm⟩ := image_header_framed img
    exact ⟨String.join mid, by
      rw [output_c_image_eq, emit_pair_header _ _ _ _ ho, hm, framed_text]⟩
  · intro ho
    obtain ⟨mid, hm⟩ := tileset_header_framed ts
    exact ⟨String.join mid, by
      rw [output_c_tileset_eq, emit_pair_header _ _ _ _ ho, hm, framed_text]⟩
  · intro ho
    obtain ⟨mid, hm⟩ := palette_header_framed p
    exact ⟨String.join mid, by
      rw [output_c_palette_eq, emit_pair_header _ _ _ _ ho, hm, framed_text]⟩
  · intro ho
    obtain ⟨mid, hm⟩ := include_file_framed o
    exact ⟨String.join mid, by
      rw [(include_file_written fs o ho).2, hm, framed_text]⟩

/-- Witness of C13: the four example artifacts on the empty file system. -/
theorem C13_header_boilerplate_witness :
    fs_empty.can_open (strdupcat image_foo.directory ".h") = true ∧
    fs_empty.can_open (strdupcat output_example.directory output_example.include_file)
      = true ∧
    (∃ body : String,
      (output_c_image fs_empty image_foo).2.files (strdupcat image_foo.directory ".h")
        = some (("#ifndef " ++ image_foo.name ++ "_include_file\n#define " ++
            image_foo.name ++
            "_include_file\n\n#ifdef __cplusplus\nextern \"C\" \x7b\n#endif\n\n") ++ body ++
            "\n#ifdef __cplusplus\n\x7d\n#endif\n\n#endif\n")) ∧
    (∃ body : String,
      (output_c_include_file fs_empty output_example).2.files
          (strdupcat output_example.directory output_example.include_file)
        = some (("#ifndef " ++ output_c_include_name output_example.include_file ++
            "_include_file\n#define " ++ output_c_include_name output_example.include_file ++
            "_include_file\n\n#ifdef __cplusplus\nextern \"C\" \x7b\n#endif\n\n") ++ body ++
            "\n#ifdef __cplusplus\n\x7d\n#endif\n\n#endif\n")) ∧
    output_c_include_name output_example.include_file = "gfx" :=
  ⟨rfl, rfl,
    (C13_header_boilerplate fs_empty image_foo tileset_example palette_example
      output_example).1 rfl,
    (C13_header_boilerplate fs_empty image_foo tileset_example palette_example
      output_example).2.2.2 rfl,
    by decide⟩

/-! ## Status and file system of the operations -/

theorem fs_ext (a b : file_system) (h1 : a.files = b.files) (h2 : a.can_open = b.can_open) :
    a = b := by
  cases a; cases b; simp_all

theorem emit_pair_closed (fs : file_system) (d h s : String) :
    emit_pair fs d h s
      = if fs.can_open (strdupcat d ".h") = true then
          if fs.can_open (strdupcat d ".c") = true then
            (0, with_file (with_file fs (strdupcat d ".h") h) (strdupcat d ".c") s)
          else (-1, with_file fs (strdupcat d ".h") h)
        else (-1, fs) := by
  have hne := header_ne_source d
  unfold emit_pair fopen_wt fwrite with_file
  by_cases ho : fs.can_open (strdupcat d ".h") = true
  · by_cases hs : fs.can_open (strdupcat d ".c") = true
    · simp only [ho, hs, if_true]
      congr 2
      funext p
      by_cases hp : p = strdupcat d ".c"
      · simp [hp]
      · by_cases hq : p = strdupcat d ".h" <;> simp [hp, hq, hne]
    · simp only [ho, hs, if_true]
      simp only [Bool.false_eq_true, if_false]
      congr 2
      funext p
      by_cases hq : p = strdupcat d ".h" <;> simp [hq]
  · simp [ho]

theorem include_file_closed (fs : file_system) (o : output) :
    output_c_include_file fs o
      = if fs.can_open (strdupcat o.directory o.include_file) = true then
          (0, with_file fs (strdupcat o.directory o.include_file)
            (String.join (output_c_include_file_lines o)))
        else (-1, fs) := by
  unfold output_c_include_file fopen_wt fwrite with_file
  by_cases ho : fs.can_open (strdupcat o.directory o.include_file) = true
  · simp only [ho, if_true]
    congr 2
    funext p
    by_cases hq : p = strdupcat o.directory o.include_file <;> simp [hq]
  · simp [ho]

theorem emit_pair_status (fs : file_system) (d h s : String) :
    ((emit_pair fs d h s).1 = -1 ↔
      (fs.can_open (strdupcat d ".h") = false ∨
        (fs.can_open (strdupcat d ".h") = true ∧ fs.can_open (strdupcat d ".c") = false)))
    ∧ ((emit_pair fs d h s).1 = 0 ↔
      (fs.can_open (strdupcat d ".h") = true ∧ fs.can_open (strdupcat d ".c") = true)) := by
  rw [emit_pair_closed]
  cases fs.can_open (strdupcat d ".h") <;> cases fs.can_open (strdupcat d ".c") <;> simp

/-- Claim C14. Over the explicit file system, in which opening a path for
writing either succeeds or fails, each of `output_c_image`,
`output_c_tileset`, `output_c_palette` and `output_c_include_file` returns
-1 if and only if one of its open attempts fails (the header's, or the
source's once the header is open; the include file's for the last one) and
returns 0 if and only if all of them succeed; the status is never anything
else, so no input value makes an operation fail when all opens succeed. -/
theorem C14_status (fs : file_system) (img : image) (ts : tileset) (p : palette)
    (o : output) :
    (((output_c_image fs img).1 = -1 ↔
        (fs.can_open (strdupcat img.directory ".h") = false ∨
          (fs.can_open (strdupcat img.directory ".h") = true ∧
            fs.can_open (strdupcat img.directory ".c") = false)))
      ∧ ((output_c_image fs img).1 = 0 ↔
        (fs.can_open (strdupcat img.directory ".h") = true ∧
          fs.can_open (strdupcat img.directory ".c") = true)))
    ∧ (((output_c_tileset fs ts).1 = -1 ↔
        (fs.can_open (strdupcat ts.directory ".h") = false ∨
          (fs.can_open (strdupcat ts.directory ".h") = true ∧
            fs.can_open (strdupcat ts.directory ".c") = false)))
      ∧ ((output_c_tileset fs ts).1 = 0 ↔
        (fs.can_open (strdupcat ts.directory ".h") = true ∧
          fs.can_open (strdupcat ts.directory ".c") = true)))
    ∧ (((output_c_palette fs p).1 = -1 ↔
        (fs.can_open (strdupcat p.directory ".h") = false ∨
          (fs.can_open (strdupcat p.directory ".h") = true ∧
            fs.can_open (strdupcat p.directory ".c") = false)))
      ∧ ((output_c_palette fs p).1 = 0 ↔
        (fs.can_open (strdupcat p.directory ".h") = true ∧
          fs.can_open (strdupcat p.directory ".c") = true)))
    ∧ (((output_c_include_file fs o).1 = -1 ↔
        fs.can_open (strdupcat o.directory o.include_file) = false)
      ∧ ((output_c_include_file fs o).1 = 0 ↔
        fs.can_open (strdupcat o.directory o.include_file) = true)) := by
  refine ⟨?_, ?_, ?_, ?_⟩
  · rw [output_c_image_eq]; exact emit_pair_status _ _ _ _
  · rw [output_c_tileset_eq]; exact emit_pair_status _ _ _ _
  · rw [output_c_palette_eq]; exact emit_pair_status _ _ _ _
  · rw [include_file_closed]
    cases fs.can_open (strdupcat o.directory o.include_file) <;> simp

/-- Witness of C14: for the image `foo` the status is -1 when the source
cannot be opened or nothing can be opened, and 0 on the empty file system. -/
theorem C14_status_witness :
    (output_c_image fs_no_source image_foo).1 = -1 ∧
    (output_c_image fs_locked image_foo).1 = -1 ∧
    (output_c_image fs_empty image_foo).1 = 0 ∧
    (output_c_include_file fs_locked output_example).1 = -1 :=
  ⟨(C14_status fs_no_source image_foo tileset_example palette_example output_example).1.1.mpr
      (Or.inr ⟨by decide, by decide⟩),
    (C14_status fs_locked image_foo tileset_example palette_example output_example).1.1.mpr
      (Or.inl rfl),
    (C14_status fs_empty image_foo tileset_example palette_example output_example).1.2.mpr
      ⟨rfl, rfl⟩,
    (C14_status fs_locked image_foo tileset_example palette_example
      output_example).2.2.2.1.mpr rfl⟩

theorem emit_pair_failures (fs fs2 : file_system) (d h s : String) :
    (fs.can_open (strdupcat d ".h") = false → emit_pair fs d h s = (-1, fs))
    ∧ (fs.can_open (strdupcat d ".h") = true → fs.can_open (strdupcat d ".c") = false →
        emit_pair fs d h s = (-1, with_file fs (strdupcat d ".h") h)
        ∧ (emit_pair fs d h s).2.files (strdupcat d ".h") = some h
        ∧ (emit_pair fs d h s).2.files (strdupcat d ".c") = fs.files (strdupcat d ".c")
        ∧ (fs2.can_open (strdupcat d ".h") = true → fs2.can_open (strdupcat d ".c") = true →
            (emit_pair fs2 d h s).1 = 0 ∧
            (emit_pair fs2 d h s).2.files (strdupcat d ".h")
              = (emit_pair fs d h s).2.files (strdupcat d ".h"))) := by
  have hne := header_ne_source d
  refine ⟨?_, ?_⟩
  · intro ho
    rw [emit_pair_closed]; simp [ho]
  · intro ho hs
    have e : emit_pair fs d h s = (-1, with_file fs (strdupcat d ".h") h) := by
      rw [emit_pair_closed]; simp [ho, hs]
    refine ⟨e, ?_, ?_, ?_⟩
    · rw [e]; simp [with_file]
    · rw [e]; simp [with_file, Ne.symm hne]
    · intro ho2 hs2
      rw [e, emit_pair_closed]
      simp [ho2, hs2, with_file, hne]

/-- Claim C15. For each of `output_c_image`, `output_c_tileset` and
`output_c_palette` over the explicit file system: if opening the header
fails, the operation returns -1 with the file system unchanged, whether or
not the source could be opened (it is never attempted); if the header opens
and the source open fails, the operation returns -1, the final file system is
the initial one with the complete header text in the header path (the same
text a successful run leaves there), and the source path holds what it held
before. The header is thus fully written when the source is opened. -/
theorem C15_partial_failure (fs fs2 : file_system) (img : image) (ts : tileset)
    (p : palette) :
    ((fs.can_open (strdupcat img.directory ".h") = false →
        output_c_image fs img = (-1, fs))
      ∧ (fs.can_open (strdupcat img.directory ".h") = true →
          fs.can_open (strdupcat img.directory ".c") = false →
          output_c_image fs img
            = (-1, with_file fs (strdupcat img.directory ".h")
                (String.join (output_c_image_header img)))
          ∧ (output_c_image fs img).2.files (strdupcat img.directory ".h")
              = some (String.join (output_c_image_header img))
          ∧ (output_c_image fs img).2.files (strdupcat img.directory ".c")
              = fs.files (strdupcat img.directory ".c")
          ∧ (fs2.can_open (strdupcat img.directory ".h") = true →
              fs2.can_open (strdupcat img.directory ".c") = true →
              (output_c_image fs2 img).1 = 0 ∧
              (output_c_image fs2 img).2.files (strdupcat img.directory ".h")
                = (output_c_image fs img).2.files (strdupcat img.directory ".h"))))
    ∧ ((fs.can_open (strdupcat ts.directory ".h") = false →
        output_c_tileset fs ts = (-1, fs))
      ∧ (fs.can_open (strdupcat ts.directory ".h") = true →
          fs.can_open (strdupcat ts.directory ".c") = false →
          output_c_tileset fs ts
            = (-1, with_file fs (strdupcat ts.directory ".h")
                (String.join (output_c_tileset_header ts)))
          ∧ (output_c_tileset fs ts).2.files (strdupcat ts.directory ".h")
              = some (String.join (output_c_tileset_header ts))
          ∧ (output_c_tileset fs ts).2.files (strdupcat ts.directory ".c")
              = fs.files (strdupcat ts.directory ".c")
          ∧ (fs2.can_open (strdupcat ts.directory ".h") = true →
              fs2.can_open (strdupcat ts.directory ".c") = true →
              (output_c_tileset fs2 ts).1 = 0 ∧
              (output_c_tileset fs2 ts).2.files (strdupcat ts.directory ".h")
                = (output_c_tileset fs ts).2.files (strdupcat ts.directory ".h"))))
    ∧ ((fs.can_open (strdupcat p.directory ".h") = false →
        output_c_palette fs p = (-1, fs))
      ∧ (fs.can_open (strdupcat p.directory ".h") = true →
          fs.can_open (strdupcat p.directory ".c") = false →
          output_c_palette fs p
            = (-1, with_file fs (strdupcat p.directory ".h")
                (String.join (output_c_palette_header p)))
          ∧ (output_c_palette fs p).2.files (strdupcat p.directory ".h")
              = some (String.join (output_c_palette_header p))
          ∧ (output_c_palette fs p).2.files (strdupcat p.directory ".c")
              = fs.files (strdupcat p.directory ".c")
          ∧ (fs2.can_open (strdupcat p.directory ".h") = true →
              fs2.can_open (strdupcat p.directory ".c") = true →
              (output_c_palette fs2 p).1 = 0 ∧
              (output_c_palette fs2 p).2.files (strdupcat p.directory ".h")
                = (output_c_palette fs p).2.files (strdupcat p.directory ".h")))) := by
  refine ⟨?_, ?_, ?_⟩
  · simp only [output_c_image_eq]; exact emit_pair_failures _ _ _ _ _
  · simp only [output_c_tileset_eq]; exact emit_pair_failures _ _ _ _ _
  · simp only [output_c_palette_eq]; exact emit_pair_failures _ _ _ _ _

set_option maxRecDepth 100000 in
/-- Witness of C15: the image `foo` when nothing can be opened (the old
source text stays, no header appears) and when only the source cannot be
opened (the header is complete, the old source text stays). -/
theorem C15_partial_failure_witness :
    fs_locked.can_open (strdupcat image_foo.directory ".h") = false ∧
    output_c_image fs_locked image_foo = (-1, fs_locked) ∧
    fs_no_source.can_open (strdupcat image_foo.directory ".h") = true ∧
    fs_no_source.can_open (strdupcat image_foo.directory ".c") = false ∧
    (output_c_image fs_no_source image_foo).1 = -1 ∧
    (output_c_image fs_no_source image_foo).2.files (strdupcat image_foo.directory ".h")
      = some ("#ifndef foo_include_file\n#define foo_include_file\n\n" ++
          "#ifdef __cplusplus\nextern \"C\" \x7b\n#endif\n\n" ++
          "#define foo_width 4\n#define foo_height 2\n#define foo_size 10\n" ++
          "#define foo ((gfx_sprite_t*)foo_data)\n" ++
          "extern unsigned char foo_data[10];\n" ++
          "\n#ifdef __cplusplus\n\x7d\n#endif\n\n#endif\n") ∧
    (output_c_image fs_no_source image_foo).2.files (strdupcat image_foo.directory ".c")
      = some "old" :=
  ⟨rfl,
    (C15_partial_failure fs_locked fs_empty image_foo tileset_example palette_example).1.1 rfl,
    by decide, by decide,
    congrArg Prod.fst ((C15_partial_failure fs_no_source fs_empty image_foo tileset_example
      palette_example).1.2 (by decide) (by decide)).1,
    ((C15_partial_failure fs_no_source fs_empty image_foo tileset_example
      palette_example).1.2 (by decide) (by decide)).2.1.trans (by decide),
    ((C15_partial_failure fs_no_source fs_empty image_foo tileset_example
      palette_example).1.2 (by decide) (by decide)).2.2.1.trans (by decide)⟩

theorem emit_pair_frame (fs : file_system) (d h s : String)
    (ho : fs.can_open (strdupcat d ".h") = true)
    (hs : fs.can_open (strdupcat d ".c") = true) :
    (emit_pair fs d h s).1 = 0
    ∧ (emit_pair fs d h s).2.files (strdupcat d ".h") = some h
    ∧ (emit_pair fs d h s).2.files (strdupcat d ".c") = some s
    ∧ (∀ path, path ≠ strdupcat d ".h" → path ≠ strdupcat d ".c" →
        (emit_pair fs d h s).2.files path = fs.files path)
    ∧ (emit_pair fs d h s).2.can_open = fs.can_open := by
  have hne := header_ne_source d
  have e : emit_pair fs d h s
      = (0, with_file (with_file fs (strdupcat d ".h") h) (strdupcat d ".c") s) := by
    rw [emit_pair_closed, if_pos ho, if_pos hs]
  rw [e]
  refine ⟨rfl, ?_, ?_, ?_, rfl⟩
  · simp [with_file, hne]
  · simp [with_file]
  · intro path h1 h2
    simp [with_file, h1, h2]

/-- Claim C16. Over the explicit file system (path to contents), a
successful `output_c_image`, `output_c_tileset` or `output_c_palette`
replaces the contents of exactly the two paths `directory ++ ".h"` and
`directory ++ ".c"` (the artifact's own `directory` field, the tileset's for
a tileset), and a successful `output_c_include_file` replaces exactly the one
path `output.directory ++ output.include_file` (the name used verbatim);
every other path holds what it held before, and the new contents are the
texts computed from the artifact alone, whatever the paths held before. -/
theorem C16_frame (fs : file_system) (img : image) (ts : tileset) (p : palette)
    (o : output) :
    (fs.can_open (strdupcat img.directory ".h") = true →
      fs.can_open (strdupcat img.directory ".c") = true →
      (output_c_image fs img).1 = 0
      ∧ (output_c_image fs img).2.files (strdupcat img.directory ".h")
          = some (String.join (output_c_image_header img))
      ∧ (output_c_image fs img).2.files (strdupcat img.directory ".c")
          = some (output_c_image_source img)
      ∧ (∀ path, path ≠ strdupcat img.directory ".h" →
          path ≠ strdupcat img.directory ".c" →
          (output_c_image fs img).2.files path = fs.files path)
      ∧ (output_c_image fs img).2.can_open = fs.can_open)
    ∧ (fs.can_open (strdupcat ts.directory ".h") = true →
      fs.can_open (strdupcat ts.directory ".c") = true →
      (output_c_tileset fs ts).1 = 0
      ∧ (output_c_tileset fs ts).2.files (strdupcat ts.directory ".h")
          = some (String.join (output_c_tileset_header ts))
      ∧ (output_c_tileset fs ts).2.files (strdupcat ts.directory ".c")
          = some (output_c_tileset_source ts)
      ∧ (∀ path, path ≠ strdupcat ts.directory ".h" →
          path ≠ strdupcat ts.directory ".c" →
          (output_c_tileset fs ts).2.files path = fs.files path)
      ∧ (output_c_tileset fs ts).2.can_open = fs.can_open)
    ∧ (fs.can_open (strdupcat p.directory ".h") = true →
      fs.can_open (strdupcat p.directory ".c") = true →
      (output_c_palette fs p).1 = 0
      ∧ (output_c_palette fs p).2.files (strdupcat p.directory ".h")
          = some (String.join (output_c_palette_header p))
      ∧ (output_c_palette fs p).2.files (strdupcat p.directory ".c")
          = some (output_c_palette_source p)
      ∧ (∀ path, path ≠ strdupcat p.directory ".h" →
          path ≠ strdupcat p.directory ".c" →
          (output_c_palette fs p).2.files path = fs.files path)
      ∧ (output_c_palette fs p).2.can_open = fs.can_open)
    ∧ (fs.can_open (o.directory ++ o.include_file) = true →
      (output_c_include_file fs o).1 = 0
      ∧ (output_c_include_file fs o).2.files (o.directory ++ o.include_file)
          = some (String.join (output_c_include_file_lines o))
      ∧ (∀ path, path ≠ o.directory ++ o.include_file →
          (output_c_include_file fs o).2.files path = fs.files path)
      ∧ (output_c_include_file fs o).2.can_open = fs.can_open) := by
  refine ⟨?_, ?_, ?_, ?_⟩
  · intro ho hs; rw [output_c_image_eq]; exact emit_pair_frame _ _ _ _ ho hs
  · intro ho hs; rw [output_c_tileset_eq]; exact emit_pair_frame _ _ _ _ ho hs
  · intro ho hs; rw [output_c_palette_eq]; exact emit_pair_frame _ _ _ _ ho hs
  · intro ho
    have ho2 : fs.can_open (strdupcat o.directory o.include_file) = true := ho
    rw [include_file_closed, if_pos ho2]
    refine ⟨rfl, ?_, ?_, rfl⟩
    · simp [with_file, strdupcat]
    · intro path h1
      simp [with_file, strdupcat, h1]

set_option maxRecDepth 100000 in
/-- Witness of C16: the example tileset (own directory `out/name`, embedded
image directory `out/img`) and the example bundle (include file `gfx.h`) on a
file system holding old text: `out/name.h` is replaced, `out/img.h` and
`out/gfx` are kept, and the include file goes to `out/gfx.h`. -/
theorem C16_frame_witness :
    (output_c_tileset fs_old tileset_example).1 = 0 ∧
    (output_c_tileset fs_old tileset_example).2.files "out/img.h" = some "keep" ∧
    (output_c_tileset fs_old tileset_example).2.files "out/name.h"
      = some (String.join (output_c_tileset_header tileset_example)) ∧
    (output_c_include_file fs_old output_example).2.files "out/gfx" = some "keep" ∧
    (output_c_include_file fs_old output_example).2.files "out/gfx.h"
      = some (String.join (output_c_include_file_lines output_example)) :=
  ⟨((C16_frame fs_old image_foo tileset_example palette_example output_example).2.1
      rfl rfl).1,
    (((C16_frame fs_old image_foo tileset_example palette_example output_example).2.1
      rfl rfl).2.2.2.1 "out/img.h" (by decide) (by decide)).trans (by decide),
    ((C16_frame fs_old image_foo tileset_example palette_example output_example).2.1
      rfl rfl).2.1,
    (((C16_frame fs_old image_foo tileset_example palette_example output_example).2.2.2
      rfl).2.2.1 "out/gfx" (by decide)).trans (by decide),
    ((C16_frame fs_old image_foo tileset_example palette_example output_example).2.2.2
      rfl).2.1⟩

/-! ## The empty buffer -/

theorem output_c_zero (arr : List Nat) : output_c arr 0 = "\n\x7d;\n" := by
  unfold output_c
  simp [String.join]

/-- Claim C17. For the empty buffer (`N = 0`) the shared formatter `output_c`
writes exactly a newline, `};` and a newline, with no hex token, comma or
indent; hence for an uncompressed image with size 0 the whole source file is
`unsigned char <name>_data[0] =`, a newline, the opening brace, a newline and
`};`: the closing line is preceded by nothing but the opening brace and a
newline. -/
theorem C17_empty_buffer (fs : file_system) (img : image) (arr : List Nat)
    (hc : img.compressed = false) (hz : img.size = 0)
    (ho : fs.can_open (strdupcat img.directory ".h") = true)
    (hs : fs.can_open (strdupcat img.directory ".c") = true) :
    output_c arr 0 = "\n\x7d;\n"
    ∧ countHexTokens (output_c arr 0).data = 0
    ∧ ',' ∉ (output_c arr 0).data
    ∧ Char.ofNat 32 ∉ (output_c arr 0).data
    ∧ (output_c_image fs img).2.files (strdupcat img.directory ".c")
        = some ("unsigned char " ++ img.name ++ "_data[0] =\n\x7b\n\x7d;\n") := by
  rw [output_c_zero]
  refine ⟨rfl, by decide, by decide, by decide, ?_⟩
  rw [output_c_image_eq, (emit_pair_source _ _ _ _ ho hs).2]
  congr 1
  unfold output_c_image_source
  have e0 : size_t_of_int 0 = 0 := by decide
  have e1 : fmt_d 0 = "0" := by decide
  rw [hz, e0, output_c_zero, e1]
  simp only [hc, Bool.false_eq_true, if_false]
  apply String.ext
  simp [String.data_append]

/-- Witness of C17: the empty image `nil` on the empty file system. -/
theorem C17_empty_buffer_witness :
    image_empty.compressed = false ∧ image_empty.size = 0 ∧
    (output_c_image fs_empty image_empty).2.files (strdupcat image_empty.directory ".c")
      = some "unsigned char nil_data[0] =\n\x7b\n\x7d;\n" :=
  ⟨rfl, rfl, (C17_empty_buffer fs_empty image_empty [] rfl rfl rfl rfl).2.2.2.2.trans
    (by decide)⟩

/-! ## Determinism and idempotence -/

theorem with_file_can_open (fs : file_system) (a x : String) :
    (with_file fs a x).can_open = fs.can_open := rfl

theorem with_file_idem (fs : file_system) (a x : String) :
    with_file (with_file fs a x) a x = with_file fs a x := by
  refine fs_ext _ _ ?_ rfl
  funext p
  by_cases h : p = a <;> simp [with_file, h]

theorem with_file_pair_idem (fs : file_system) (a x b y : String) :
    with_file (with_file (with_file (with_file fs a x) b y) a x) b y
      = with_file (with_file fs a x) b y := by
  refine fs_ext _ _ ?_ rfl
  funext p
  by_cases h : p = b
  · simp [with_file, h]
  · by_cases h2 : p = a <;> simp [with_file, h, h2]

theorem emit_pair_idem (fs : file_system) (d h s : String) :
    emit_pair (emit_pair fs d h s).2 d h s
      = ((emit_pair fs d h s).1, (emit_pair fs d h s).2) := by
  have hne := header_ne_source d
  by_cases ho : fs.can_open (strdupcat d ".h") = true
  · by_cases hs : fs.can_open (strdupcat d ".c") = true
    · have e : emit_pair fs d h s
          = (0, with_file (with_file fs (strdupcat d ".h") h) (strdupcat d ".c") s) := by
        rw [emit_pair_closed, if_pos ho, if_pos hs]
      rw [e]
      show emit_pair (with_file (with_file fs (strdupcat d ".h") h) (strdupcat d ".c") s)
        d h s = _
      rw [emit_pair_closed, if_pos (by exact ho), if_pos (by exact hs),
        with_file_pair_idem]
    · have e : emit_pair fs d h s = (-1, with_file fs (strdupcat d ".h") h) := by
        rw [emit_pair_closed, if_pos ho, if_neg hs]
      rw [e]
      show emit_pair (with_file fs (strdupcat d ".h") h) d h s = _
      rw [emit_pair_closed, if_pos (by exact ho), if_neg (by exact hs), with_file_idem]
  · have e : emit_pair fs d h s = (-1, fs) := by
      rw [emit_pair_closed, if_neg ho]
    rw [e]
    show emit_pair fs d h s = _
    rw [e]

theorem emit_pair_independent (fs1 fs2 : file_system) (d h s : String)
    (hc : fs1.can_open = fs2.can_open)
    (hf : ∀ path, path ∉ [strdupcat d ".h", strdupcat d ".c"] →
      fs1.files path = fs2.files path) :
    (emit_pair fs1 d h s).1 = (emit_pair fs2 d h s).1 ∧
    ((emit_pair fs1 d h s).1 = 0 → (emit_pair fs1 d h s).2 = (emit_pair fs2 d h s).2) := by
  rw [emit_pair_closed, emit_pair_closed, ← hc]
  by_cases ho : fs1.can_open (strdupcat d ".h") = true
  · by_cases hs : fs1.can_open (strdupcat d ".c") = true
    · rw [if_pos ho, if_pos hs, if_pos ho, if_pos hs]
      refine ⟨rfl, fun _ => ?_⟩
      refine fs_ext _ _ ?_ hc
      funext p
      by_cases h1 : p = strdupcat d ".c"
      · simp [with_file, h1]
      · by_cases h2 : p = strdupcat d ".h"
        · simp [with_file, h1, h2]
        · simp only [with_file, h1, h2, if_false]
          exact hf p (by simp [h1, h2])
    · rw [if_pos ho, if_neg hs, if_pos ho, if_neg hs]
      exact ⟨rfl, fun h0 => absurd h0 (by decide : ¬ ((-1 : Int) = 0))⟩
  · rw [if_neg ho, if_neg ho]
    exact ⟨rfl, fun h0 => absurd h0 (by decide : ¬ ((-1 : Int) = 0))⟩

theorem include_file_idem (fs : file_system) (o : output) :
    output_c_include_file (output_c_include_file fs o).2 o
      = ((output_c_include_file fs o).1, (output_c_include_file fs o).2) := by
  by_cases ho : fs.can_open (strdupcat o.directory o.include_file) = true
  · have e : output_c_include_file fs o
        = (0, with_file fs (strdupcat o.directory o.include_file)
            (String.join (output_c_include_file_lines o))) := by
      rw [include_file_closed, if_pos ho]
    rw [e]
    show output_c_include_file (with_file fs _ _) o = _
    rw [include_file_closed, if_pos (by exact ho), with_file_idem]
  · have e : output_c_include_file fs o = (-1, fs) := by
      rw [include_file_closed, if_neg ho]
    rw [e]
    show output_c_include_file fs o = _
    rw [e]

theorem include_file_independent (fs1 fs2 : file_system) (o : output)
    (hc : fs1.can_open = fs2.can_open)
    (hf : ∀ path, path ∉ [strdupcat o.directory o.include_file] →
      fs1.files path = fs2.files path) :
    (output_c_include_file fs1 o).1 = (output_c_include_file fs2 o).1 ∧
    ((output_c_include_file fs1 o).1 = 0 →
      (output_c_include_file fs1 o).2 = (output_c_include_file fs2 o).2) := by
  rw [include_file_closed, include_file_closed, ← hc]
  by_cases ho : fs1.can_open (strdupcat o.directory o.include_file) = true
  · rw [if_pos ho, if_pos ho]
    refine ⟨rfl, fun _ => ?_⟩
    refine fs_ext _ _ ?_ hc
    funext p
    by_cases h1 : p = strdupcat o.directory o.include_file
    · simp [with_file, h1]
    · simp only [with_file, h1, if_false]
      exact hf p (by simp [h1])
  · rw [if_neg ho, if_neg ho]
    exact ⟨rfl, fun h0 => absurd h0 (by decide : ¬ ((-1 : Int) = 0))⟩

/-- Claim C18. Each emission operation is a function of its input and of the
explicit file-system state, whose set of openable paths it does not change,
and it is idempotent: running it a second time on the state produced by the
first run returns the same status and leaves that state unchanged. Files are
opened in truncate mode, so the result does not depend on what the written
paths held before: from two states with the same openable paths that agree
on every other path, the runs return the same status and, when they succeed,
the same state. -/
theorem C18_idempotent (img : image) (ts : tileset) (p : palette) (o : output) :
    (idempotent_on output_c_image img ∧
      independent_of_old output_c_image img
        [strdupcat img.directory ".h", strdupcat img.directory ".c"])
    ∧ (idempotent_on output_c_tileset ts ∧
      independent_of_old output_c_tileset ts
        [strdupcat ts.directory ".h", strdupcat ts.directory ".c"])
    ∧ (idempotent_on output_c_palette p ∧
      independent_of_old output_c_palette p
        [strdupcat p.directory ".h", strdupcat p.directory ".c"])
    ∧ (idempotent_on output_c_include_file o ∧
      independent_of_old output_c_include_file o
        [strdupcat o.directory o.include_file]) := by
  refine ⟨⟨?_, ?_⟩, ⟨?_, ?_⟩, ⟨?_, ?_⟩, ⟨?_, ?_⟩⟩
  · intro fs; simp only [output_c_image_eq]; exact emit_pair_idem _ _ _ _
  · intro fs1 fs2 hc hf; simp only [output_c_image_eq]
    exact emit_pair_independent _ _ _ _ _ hc hf
  · intro fs; simp only [output_c_tileset_eq]; exact emit_pair_idem _ _ _ _
  · intro fs1 fs2 hc hf; simp only [output_c_tileset_eq]
    exact emit_pair_independent _ _ _ _ _ hc hf
  · intro fs; simp only [output_c_palette_eq]; exact emit_pair_idem _ _ _ _
  · intro fs1 fs2 hc hf; simp only [output_c_palette_eq]
    exact emit_pair_independent _ _ _ _ _ hc hf
  · intro fs; exact include_file_idem fs o
  · intro fs1 fs2 hc hf; exact include_file_independent fs1 fs2 o hc hf

/-- Witness of C18: a second run of `output_c_image` on `foo`, after a run
that wrote the header and could not open the source, changes nothing; and the
runs from the empty and from the old file system leave the same state. -/
theorem C18_idempotent_witness :
    output_c_image (output_c_image fs_no_source image_foo).2 image_foo
      = ((output_c_image fs_no_source image_foo).1,
         (output_c_image fs_no_source image_foo).2) ∧
    (output_c_image fs_empty image_foo).1 = 0 ∧
    (output_c_image fs_empty image_foo).2
      = (output_c_image (with_file fs_empty "out/foo.h" "old") image_foo).2 :=
  ⟨(C18_idempotent image_foo tileset_example palette_example output_example).1.1
      fs_no_source,
    rfl,
    ((C18_idempotent image_foo tileset_example palette_example output_example).1.2
      fs_empty (with_file fs_empty "out/foo.h" "old") rfl
      (by intro path hp
          have h1 : path ≠ "out/foo.h" := fun e => hp (by rw [e]; decide)
          simp [with_file, fs_empty, h1])).2 rfl⟩

/-! ## The flags of a tileset -/

set_option maxRecDepth 1000000 in
theorem strip_blanks_token : ∀ x < 256,
    strip_blanks ("0x" ++ hex2 x).data = hex_token x ∧
    strip_blanks ("0x" ++ hex2 x ++ ",").data = hex_token x ++ [','] ∧
    strip_blanks ("\n    " ++ "0x" ++ hex2 x).data = hex_token x ∧
    strip_blanks ("\n    " ++ "0x" ++ hex2 x ++ ",").data = hex_token x ++ [','] := by decide

set_option maxRecDepth 1000000 in
theorem read_hex_token : ∀ x < 256,
    read_hex_byte (hex_token x) = some x ∧ ',' ∉ hex_token x := by decide

theorem strip_blanks_append (a b : List Char) :
    strip_blanks (a ++ b) = strip_blanks a ++ strip_blanks b := by
  unfold strip_blanks
  exact List.filter_append _ _

theorem strip_blanks_item (b : List Nat) (hb : ∀ x ∈ b, x < 256) (i : Nat)
    (hi : i < b.length) :
    strip_blanks (spec_output_c_item b i).data
      = hex_token (b.getD i 0) ++ (if i + 1 < b.length then [','] else []) := by
  have hx : b.getD i 0 < 256 := by
    rw [List.getD_eq_getElem _ _ hi]; exact hb _ (List.getElem_mem _)
  obtain ⟨h1, h2, h3, h4⟩ := strip_blanks_token _ hx
  unfold spec_output_c_item
  by_cases hm : i % 32 = 0 <;> by_cases hl : i + 1 < b.length
  · simp only [hm, hl, if_true]; exact h4
  · simp only [hm, hl, if_true, if_false, String.append_empty, List.append_nil]; exact h3
  · simp only [hm, hl, if_true, if_false, String.empty_append]; exact h2
  · simp only [hm, hl, if_false, String.empty_append, String.append_empty, List.append_nil]
    exact h1

theorem strip_blanks_items (b : List Nat) (hb : ∀ x ∈ b, x < 256) :
    ∀ (n k : Nat), k + n = b.length →
      strip_blanks ((List.range' k n).map (fun i => (spec_output_c_item b i).data)).flatten
        = comma_separated (b.drop k) := by
  intro n
  induction n with
  | zero =>
    intro k hk
    have : b.drop k = [] := List.drop_eq_nil_of_le (by omega)
    rw [this]
    rfl
  | succ n ih =>
    intro k hk
    have hlt : k < b.length := by omega
    rw [List.range'_succ, List.map_cons, List.flatten_cons, strip_blanks_append,
      ih (k + 1) (by omega), strip_blanks_item b hb k hlt, List.drop_eq_getElem_cons hlt,
      List.getD_eq_getElem _ _ hlt]
    show _ = hex_token b[k] ++ (if b.drop (k + 1) = [] then [] else _)
    by_cases hl : k + 1 < b.length
    · have hne : b.drop (k + 1) ≠ [] := by
        intro h
        have := congrArg List.length h
        simp at this
        omega
      simp [hl, hne]
    · have he : b.drop (k + 1) = [] := List.drop_eq_nil_of_le (by omega)
      simp [hl, he, comma_separated]

theorem split_commas_ne_nil : ∀ l : List Char, split_commas l ≠ [] := by
  intro l
  induction l with
  | nil => simp [split_commas]
  | cons c cs ih =>
    unfold split_commas
    by_cases hc : c = ','
    · simp [hc]
    · simp only [hc, if_false]
      cases h : split_commas cs with
      | nil => simp
      | cons q qs => simp

theorem split_commas_single : ∀ p : List Char, ',' ∉ p → split_commas p = [p] := by
  intro p
  induction p with
  | nil => intro _; rfl
  | cons c cs ih =>
    intro h
    have hc : c ≠ ',' := fun e => h (e ▸ List.mem_cons_self _ _)
    have hcs : ',' ∉ cs := fun m => h (List.mem_cons_of_mem _ m)
    unfold split_commas
    simp only [hc, if_false, ih hcs]

theorem split_commas_append : ∀ (p rest : List Char), ',' ∉ p →
    split_commas (p ++ ',' :: rest) = p :: split_commas rest := by
  intro p
  induction p with
  | nil =>
    intro rest _
    simp [split_commas]
  | cons c cs ih =>
    intro rest h
    have hc : c ≠ ',' := fun e => h (e ▸ List.mem_cons_self _ _)
    have hcs : ',' ∉ cs := fun m => h (List.mem_cons_of_mem _ m)
    rw [List.cons_append, split_commas]
    simp only [hc, if_false, ih rest hcs]

theorem read_comma_separated : ∀ b : List Nat, (∀ x ∈ b, x < 256) → b ≠ [] →
    all_some ((split_commas (comma_separated b)).map read_hex_byte) = some b := by
  intro b
  induction b with
  | nil => intro _ h; exact absurd rfl h
  | cons x rest ih =>
    intro hb _
    obtain ⟨hr, hc⟩ := read_hex_token x (hb x (List.mem_cons_self _ _))
    by_cases he : rest = []
    · subst he
      simp only [comma_separated, if_true, List.append_nil]
      rw [split_commas_single _ hc]
      simp [all_some, hr]
    · have hrest := ih (fun y hy => hb y (List.mem_cons_of_mem _ hy)) he
      simp only [comma_separated, he, if_false]
      rw [split_commas_append _ _ hc, List.map_cons, hr]
      simp only [all_some, hrest]

theorem comma_separated_ne_nil (b : List Nat) (h : b ≠ []) : comma_separated b ≠ [] := by
  cases b with
  | nil => exact absurd rfl h
  | cons x rest => simp [comma_separated, hex_token]

theorem strip_closing_append (body : List Char) :
    strip_closing (body ++ ("\n\x7d;\n" : String).data) = some body := by
  have hl : (body ++ ("\n\x7d;\n" : String).data).length - 4 = body.length := by
    simp [String.data]
  unfold strip_closing
  rw [hl, List.drop_left, List.take_left]
  simp

theorem decode_spec_output_c (b : List Nat) (hb : ∀ x ∈ b, x < 256) :
    decode_output_c (spec_output_c b) = some b := by
  have hdata : (spec_output_c b).data
      = ((List.range' 0 b.length).map (fun i => (spec_output_c_item b i).data)).flatten ++
        ("\n\x7d;\n" : String).data := by
    unfold spec_output_c
    rw [String.data_append, String.data_join, List.map_map, List.range_eq_range']
    rfl
  unfold decode_output_c
  rw [hdata, strip_closing_append]
  simp only
  rw [strip_blanks_items b hb b.length 0 (by omega), List.drop_zero]
  by_cases he : b = []
  · subst he; rfl
  · rw [if_neg (comma_separated_ne_nil b he), read_comma_separated b hb he]

/-- Claim C20. The shared formatter is lossless and injective: for every
buffer `b` of bytes in 0..255, removing the trailing closing line from the
output of `output_c`, deleting newlines and spaces, splitting on `,` and
reading each piece `0xhh` as a hexadecimal number yields exactly the bytes of
`b` in order; therefore two different buffers never produce the same
formatter output. -/
theorem C20_output_c_lossless (b : List Nat) (hb : ∀ x ∈ b, x < 256) :
    decode_output_c (output_c b b.length) = some b
    ∧ ∀ b2 : List Nat, (∀ x ∈ b2, x < 256) →
        output_c b b.length = output_c b2 b2.length → b = b2 := by
  have h1 : decode_output_c (output_c b b.length) = some b := by
    rw [output_c_eq_spec b hb]; exact decode_spec_output_c b hb
  refine ⟨h1, ?_⟩
  intro b2 hb2 he
  have h2 : decode_output_c (output_c b2 b2.length) = some b2 := by
    rw [output_c_eq_spec b2 hb2]; exact decode_spec_output_c b2 hb2
  rw [he, h2] at h1
  exact (Option.some.inj h1).symm

set_option maxRecDepth 100000 in
/-- Witness of C20: the output for `[0, 171, 255]` reads back as the buffer,
and the buffers `[1]` and `[2]` give different outputs. -/
theorem C20_output_c_lossless_witness :
    (∀ x ∈ [0, 171, 255], x < 256) ∧
    decode_output_c "\n    0x00,0xab,0xff\n\x7d;\n" = some [0, 171, 255] ∧
    output_c [0, 171, 255] 3 = "\n    0x00,0xab,0xff\n\x7d;\n" ∧
    output_c [1] 1 ≠ output_c [2] 1 :=
  ⟨by decide,
    (congrArg decode_output_c (by decide :
      ("\n    0x00,0xab,0xff\n\x7d;\n" : String) = output_c [0, 171, 255] 3)).trans
      (C20_output_c_lossless [0, 171, 255] (by decide)).1,
    by decide,
    fun e => absurd ((C20_output_c_lossless [1] (by decide)).2 [2] (by decide) e)
      (by decide)⟩

end Convimg
